import Mathlib

/-!
Shallow embedding of the `elfp` ELF parser (`src/main.rs`) and proofs about
its decoding behaviour.

Modelling conventions:
* Bytes are `Nat` (each buffer byte is below 256 in every concrete input);
  the raw image is a `List Nat`.
* Rust's `&mut usize` cursor becomes explicit state passing: every parser
  takes the current pointer and returns the value paired with the new
  pointer.
* A Rust `Result::Err(msg)` becomes `PResult.err msg ptr`, where `ptr` is
  the pointer value left behind in the caller's `&mut usize` at the moment
  the error is returned (the source sometimes advances the pointer before
  erroring, sometimes not).
* Rust's unchecked slice indexing `content[i]` panics when `i` is out of
  bounds; a panic is modelled by `PResult.crash`.  A `crash` propagates
  through all sequencing and, unlike `err`, is not caught by the
  program-header loop's `match`.
* `String::from_utf8_lossy` is modelled by mapping each byte to the
  character with that code point, which agrees with the source on the
  ASCII bytes exercised here (the magic bytes and section names).
-/

/-- Outcome of a decoding step: a Rust `Ok` value, a Rust `Err` with the
message and the pointer value left in the caller's cursor, or a panic
from unchecked indexing. -/
inductive PResult (α : Type) where
  | ok : α → PResult α
  | err : String → Nat → PResult α
  | crash : PResult α
deriving DecidableEq

/-- Sequencing of decoding steps: `err` and `crash` both propagate, as the
`?` operator and panics do in the source. -/
def PResult.bind {α β : Type} : PResult α → (α → PResult β) → PResult β
  | .ok a, f => f a
  | .err m p, _ => .err m p
  | .crash, _ => .crash

@[simp] theorem PResult.bind_ok {α β : Type} (a : α) (f : α → PResult β) :
    (PResult.ok a).bind f = f a := rfl

@[simp] theorem PResult.bind_err {α β : Type} (m : String) (p : Nat) (f : α → PResult β) :
    (PResult.err m p).bind f = .err m p := rfl

@[simp] theorem PResult.bind_crash {α β : Type} (f : α → PResult β) :
    (PResult.crash : PResult α).bind f = .crash := rfl

/-- Reading one byte of the raw image; out-of-bounds indexing is the
panic of Rust's `content[i]`. -/
def byteAt (content : List Nat) (i : Nat) : PResult Nat :=
  match content.get? i with
  | some b => .ok b
  | none => .crash

/-- `ElfEndianness` from the source. -/
inductive ElfEndianness where
  | Little
  | Big
deriving DecidableEq

/-- `ElfEndianness::u16_from`: two-byte composition, bytes given in memory
order, as `u16::from_le_bytes` / `u16::from_be_bytes` do. -/
def ElfEndianness.u16_from (e : ElfEndianness) (b0 b1 : Nat) : Nat :=
  match e with
  | .Little => b0 + 2 ^ 8 * b1
  | .Big => b1 + 2 ^ 8 * b0

/-- `ElfEndianness::u32_from`. -/
def ElfEndianness.u32_from (e : ElfEndianness) (b0 b1 b2 b3 : Nat) : Nat :=
  match e with
  | .Little => b0 + 2 ^ 8 * b1 + 2 ^ 16 * b2 + 2 ^ 24 * b3
  | .Big => b3 + 2 ^ 8 * b2 + 2 ^ 16 * b1 + 2 ^ 24 * b0

/-- `ElfEndianness::u64_from`. -/
def ElfEndianness.u64_from (e : ElfEndianness) (b0 b1 b2 b3 b4 b5 b6 b7 : Nat) : Nat :=
  match e with
  | .Little => b0 + 2 ^ 8 * b1 + 2 ^ 16 * b2 + 2 ^ 24 * b3 + 2 ^ 32 * b4
      + 2 ^ 40 * b5 + 2 ^ 48 * b6 + 2 ^ 56 * b7
  | .Big => b7 + 2 ^ 8 * b6 + 2 ^ 16 * b5 + 2 ^ 24 * b4 + 2 ^ 32 * b3
      + 2 ^ 40 * b2 + 2 ^ 48 * b1 + 2 ^ 56 * b0

/-- `ElfPlatformType` from the source (word class: 32- or 64-bit). -/
inductive ElfPlatformType where
  | Bit32
  | Bit64
deriving DecidableEq

/-- `String::from_utf8_lossy` restricted to the ASCII regime used by the
source (magic bytes, section names). -/
def stringOfBytes (bs : List Nat) : String :=
  String.mk (bs.map (fun b => Char.ofNat b))

/-- `ElfTargetSystemAbi` from the source. -/
inductive ElfTargetSystemAbi where
  | Unknown
  | SystemV
  | Hpux
  | NetBsd
  | Linux
  | GnuHurd
  | Solaris
  | AixMonterey
  | Irix
  | FreeBsd
  | Tru64
  | NovellModesto
  | OpenBsd
  | OpenVms
  | NonStopKernel
  | Aros
  | FenixOs
  | NuxiCloudAbi
  | StratusTechnologiesOpenVos
deriving DecidableEq

/-- The `match` arms of `parse_target_system_abi`: `none` is the
`Unsupported platform!` default arm. -/
def abiOf (b : Nat) : Option ElfTargetSystemAbi :=
  if b = 0x00 then some .SystemV
  else if b = 0x01 then some .Hpux
  else if b = 0x02 then some .NetBsd
  else if b = 0x03 then some .Linux
  else if b = 0x04 then some .GnuHurd
  else if b = 0x06 then some .Solaris
  else if b = 0x07 then some .AixMonterey
  else if b = 0x08 then some .Irix
  else if b = 0x09 then some .FreeBsd
  else if b = 0x0A then some .Tru64
  else if b = 0x0B then some .NovellModesto
  else if b = 0x0C then some .OpenBsd
  else if b = 0x0D then some .OpenVms
  else if b = 0x0E then some .NonStopKernel
  else if b = 0x0F then some .Aros
  else if b = 0x10 then some .FenixOs
  else if b = 0x11 then some .NuxiCloudAbi
  else if b = 0x12 then some .StratusTechnologiesOpenVos
  else none

/-- `ElfObjectFileType` from the source. -/
inductive ElfObjectFileType where
  | EtNone
  | EtRel
  | EtExec
  | EtDyn
  | EtCore
  | EtLoos
  | EtHios
  | EtLoproc
  | EtHiproc
deriving DecidableEq

/-- The `match` arms of `parse_object_file_type`; `none` is the
`Unsupported Object File Type` default arm. -/
def otypeOf (v : Nat) : Option ElfObjectFileType :=
  if v = 0x00 then some .EtNone
  else if v = 0x01 then some .EtRel
  else if v = 0x02 then some .EtExec
  else if v = 0x03 then some .EtDyn
  else if v = 0x04 then some .EtCore
  else if v = 0xFE00 then some .EtLoos
  else if v = 0xFEFF then some .EtHios
  else if v = 0xFF00 then some .EtLoproc
  else if v = 0xFFFF then some .EtHiproc
  else none

/-- `ElfInstructionSet` from the source. -/
inductive ElfInstructionSet where
  | AdvancedLogicCorpTinyJ
  | AmdX86_64
  | ArgonautRiscCore
  | Arm
  | Arm64bit
  | AtTwe32100
  | AxisCommunications32bit
  | BerkeleyPacketFilter
  | DensoNdr1
  | DigitalAlpha
  | DigitalEquipmentCorpPdp10
  | DigitalEquipmentCorpPdp11
  | DigitalVax
  | Element14_64bitDSP
  | FujitsuFr20
  | FujitsuMma
  | HewlettPackardPaRisc
  | HitachiH8500
  | HitachiH8S
  | HitachiH8_300
  | HitachiH8_300H
  | Ia64
  | IbmSpuSpc
  | Ibmsystem370
  | InfineonTechnologies32bit
  | Intel80860
  | Intel80960
  | IntelMcu
  | LoongArch
  | LsiLogic16bitDsp
  | Mips
  | Mipsrs3000LittleEndian
  | McstElbrusE2k
  | Motorola68000M68k
  | Motorola88000M88k
  | MotorolaColdFire
  | MotorolaM68hc12
  | MotorolaMc68hc05
  | MotorolaMc68hc08
  | MotorolaMc68hc11
  | MotorolaMc68hc16
  | MotorolaRce
  | MotorolaStarCore
  | NecV800
  | PowerPc
  | PowerPc64bit
  | Reserved
  | RiscV
  | S390
  | Sparc
  | SiemensFx66
  | SiemensPcp
  | SiemensTriCore
  | SiliconGraphicsSvx
  | SonyDsp
  | SonyNCpu
  | SparcV9
  | StanfordMipsX
  | StmicroElectronicsSt100
  | StmicroElectronicsSt19
  | StmicroElectronicsSt7
  | StmicroElectronicsSt9
  | SuperH
  | Tms320c6000Family
  | ToyotaMe16
  | TrwRh32
  | UnSpecified
  | Wdc65c816
  | X86
  | ZilogZ80
deriving DecidableEq

/-- The `match` arms of `parse_instruction_set` in source order, including
the two reserved ranges; `none` is the `Unsupported instructoin set`
default arm. -/
def isetOf (v : Nat) : Option ElfInstructionSet :=
  if v = 0x00 then some .UnSpecified
  else if v = 0x01 then some .AtTwe32100
  else if v = 0x02 then some .Sparc
  else if v = 0x03 then some .X86
  else if v = 0x04 then some .Motorola68000M68k
  else if v = 0x05 then some .Motorola88000M88k
  else if v = 0x06 then some .IntelMcu
  else if v = 0x07 then some .Intel80860
  else if v = 0x08 then some .Mips
  else if v = 0x09 then some .Ibmsystem370
  else if v = 0x0A then some .Mipsrs3000LittleEndian
  else if 0x0B ≤ v ∧ v ≤ 0x0E then some .Reserved
  else if v = 0x0F then some .HewlettPackardPaRisc
  else if v = 0x13 then some .Intel80960
  else if v = 0x14 then some .PowerPc
  else if v = 0x15 then some .PowerPc64bit
  else if v = 0x16 then some .S390
  else if v = 0x17 then some .IbmSpuSpc
  else if 0x18 ≤ v ∧ v ≤ 0x23 then some .Reserved
  else if v = 0x24 then some .NecV800
  else if v = 0x25 then some .FujitsuFr20
  else if v = 0x26 then some .TrwRh32
  else if v = 0x27 then some .MotorolaRce
  else if v = 0x28 then some .Arm
  else if v = 0x29 then some .DigitalAlpha
  else if v = 0x2A then some .SuperH
  else if v = 0x2B then some .SparcV9
  else if v = 0x2C then some .SiemensTriCore
  else if v = 0x2D then some .ArgonautRiscCore
  else if v = 0x2E then some .HitachiH8_300
  else if v = 0x2F then some .HitachiH8_300H
  else if v = 0x30 then some .HitachiH8S
  else if v = 0x31 then some .HitachiH8500
  else if v = 0x32 then some .Ia64
  else if v = 0x33 then some .StanfordMipsX
  else if v = 0x34 then some .MotorolaColdFire
  else if v = 0x35 then some .MotorolaM68hc12
  else if v = 0x36 then some .FujitsuMma
  else if v = 0x37 then some .SiemensPcp
  else if v = 0x38 then some .SonyNCpu
  else if v = 0x39 then some .DensoNdr1
  else if v = 0x3A then some .MotorolaStarCore
  else if v = 0x3B then some .ToyotaMe16
  else if v = 0x3C then some .StmicroElectronicsSt100
  else if v = 0x3D then some .AdvancedLogicCorpTinyJ
  else if v = 0x3E then some .AmdX86_64
  else if v = 0x3F then some .SonyDsp
  else if v = 0x40 then some .DigitalEquipmentCorpPdp10
  else if v = 0x41 then some .DigitalEquipmentCorpPdp11
  else if v = 0x42 then some .SiemensFx66
  else if v = 0x43 then some .StmicroElectronicsSt9
  else if v = 0x44 then some .StmicroElectronicsSt7
  else if v = 0x45 then some .MotorolaMc68hc16
  else if v = 0x46 then some .MotorolaMc68hc11
  else if v = 0x47 then some .MotorolaMc68hc08
  else if v = 0x48 then some .MotorolaMc68hc05
  else if v = 0x49 then some .SiliconGraphicsSvx
  else if v = 0x4A then some .StmicroElectronicsSt19
  else if v = 0x4B then some .DigitalVax
  else if v = 0x4C then some .AxisCommunications32bit
  else if v = 0x4D then some .InfineonTechnologies32bit
  else if v = 0x4E then some .Element14_64bitDSP
  else if v = 0x4F then some .LsiLogic16bitDsp
  else if v = 0x8C then some .Tms320c6000Family
  else if v = 0xAF then some .McstElbrusE2k
  else if v = 0xB7 then some .Arm64bit
  else if v = 0xDC then some .ZilogZ80
  else if v = 0xF3 then some .RiscV
  else if v = 0xF7 then some .BerkeleyPacketFilter
  else if v = 0x101 then some .Wdc65c816
  else if v = 0x102 then some .LoongArch
  else none

/-- `ElfHeader` from the source.  The transparent numeric newtype wrappers
(`ElfEntryPoint(usize)`, `ElfFlags(u32)`, ...) are modelled directly as
`Nat`; `magic_number` keeps the `String` representation of the source. -/
structure ElfHeader where
  magic_number : String
  platform_type : ElfPlatformType
  endianness : ElfEndianness
  elf_header_version : Nat
  target_system_abi : ElfTargetSystemAbi
  target_abi_version : Nat
  object_file_type : ElfObjectFileType
  instruction_set : ElfInstructionSet
  elf_version : Nat
  entry_point : Nat
  program_header_offset : Nat
  section_header_offset : Nat
  flags : Nat
  header_size : Nat
  program_header_entry_size : Nat
  program_header_entry_count : Nat
  section_header_entry_size : Nat
  section_header_entry_count : Nat
  section_header_sections_table_index : Nat
deriving DecidableEq

/-- `parse_magic_number`: reads 4 bytes, advances by 4, then rejects
anything other than `0x7F 45 4C 46`. -/
def parse_magic_number (pointer : Nat) (content : List Nat) : PResult (String × Nat) :=
  (byteAt content pointer).bind fun b0 =>
  (byteAt content (pointer + 1)).bind fun b1 =>
  (byteAt content (pointer + 2)).bind fun b2 =>
  (byteAt content (pointer + 3)).bind fun b3 =>
  if b0 = 0x7f ∧ b1 = 0x45 ∧ b2 = 0x4c ∧ b3 = 0x46 then
    .ok (stringOfBytes [b0, b1, b2, b3], pointer + 4)
  else
    .err "Unsupported file type" (pointer + 4)

/-- `parse_platform_type`: class byte 1 is 32-bit, 2 is 64-bit, anything
else errors before the pointer is advanced. -/
def parse_platform_type (pointer : Nat) (content : List Nat) :
    PResult (ElfPlatformType × Nat) :=
  (byteAt content pointer).bind fun b =>
  if b = 1 then .ok (.Bit32, pointer + 1)
  else if b = 2 then .ok (.Bit64, pointer + 1)
  else .err "Invalid platform type" pointer

/-- `parse_endianness`: order byte 1 is little, 2 is big, anything else
errors before the pointer is advanced. -/
def parse_endianness (pointer : Nat) (content : List Nat) :
    PResult (ElfEndianness × Nat) :=
  (byteAt content pointer).bind fun b =>
  if b = 1 then .ok (.Little, pointer + 1)
  else if b = 2 then .ok (.Big, pointer + 1)
  else .err "Invalid endianness!" pointer

/-- `parse_elf_header_version`: one raw byte. -/
def parse_elf_header_version (pointer : Nat) (content : List Nat) :
    PResult (Nat × Nat) :=
  (byteAt content pointer).bind fun b =>
  .ok (b, pointer + 1)

/-- `parse_target_system_abi`: matches the OS/ABI byte, erroring (pointer
not advanced) on unrecognized codes. -/
def parse_target_system_abi (pointer : Nat) (content : List Nat) :
    PResult (ElfTargetSystemAbi × Nat) :=
  (byteAt content pointer).bind fun b =>
  match abiOf b with
  | some a => .ok (a, pointer + 1)
  | none => .err "Unsupported platform!" pointer

/-- `parse_target_abi_version`: one raw byte. -/
def parse_target_abi_version (pointer : Nat) (content : List Nat) :
    PResult (Nat × Nat) :=
  (byteAt content pointer).bind fun b =>
  .ok (b, pointer + 1)

/-- `parse_reserved_padding`: seven bytes, skipped unchecked. -/
def parse_reserved_padding (pointer : Nat) (content : List Nat) :
    PResult (List Nat × Nat) :=
  (byteAt content pointer).bind fun b0 =>
  (byteAt content (pointer + 1)).bind fun b1 =>
  (byteAt content (pointer + 2)).bind fun b2 =>
  (byteAt content (pointer + 3)).bind fun b3 =>
  (byteAt content (pointer + 4)).bind fun b4 =>
  (byteAt content (pointer + 5)).bind fun b5 =>
  (byteAt content (pointer + 6)).bind fun b6 =>
  .ok ([b0, b1, b2, b3, b4, b5, b6], pointer + 7)

/-- `parse_object_file_type`: two order-dependent bytes, advanced before
the match, unrecognized codes are fatal. -/
def parse_object_file_type (pointer : Nat) (content : List Nat)
    (endian : ElfEndianness) : PResult (ElfObjectFileType × Nat) :=
  (byteAt content pointer).bind fun b0 =>
  (byteAt content (pointer + 1)).bind fun b1 =>
  match otypeOf (endian.u16_from b0 b1) with
  | some t => .ok (t, pointer + 2)
  | none => .err "Unsupported Object File Type" (pointer + 2)

/-- `parse_instruction_set`: two order-dependent bytes, advanced before
the match, unrecognized codes are fatal (the message keeps the source's
spelling). -/
def parse_instruction_set (pointer : Nat) (content : List Nat)
    (endian : ElfEndianness) : PResult (ElfInstructionSet × Nat) :=
  (byteAt content pointer).bind fun b0 =>
  (byteAt content (pointer + 1)).bind fun b1 =>
  match isetOf (endian.u16_from b0 b1) with
  | some s => .ok (s, pointer + 2)
  | none => .err "Unsupported instructoin set" (pointer + 2)

/-- `parse_elf_version`: four order-dependent bytes. -/
def parse_elf_version (pointer : Nat) (content : List Nat)
    (endian : ElfEndianness) : PResult (Nat × Nat) :=
  (byteAt content pointer).bind fun b0 =>
  (byteAt content (pointer + 1)).bind fun b1 =>
  (byteAt content (pointer + 2)).bind fun b2 =>
  (byteAt content (pointer + 3)).bind fun b3 =>
  .ok (endian.u32_from b0 b1 b2 b3, pointer + 4)

/-- `parse_entry_point`: word-size field (4 bytes on 32-bit, 8 on
64-bit). -/
def parse_entry_point (pointer : Nat) (content : List Nat)
    (platform : ElfPlatformType) (endian : ElfEndianness) : PResult (Nat × Nat) :=
  match platform with
  | .Bit32 =>
    (byteAt content pointer).bind fun b0 =>
    (byteAt content (pointer + 1)).bind fun b1 =>
    (byteAt content (pointer + 2)).bind fun b2 =>
    (byteAt content (pointer + 3)).bind fun b3 =>
    .ok (endian.u32_from b0 b1 b2 b3, pointer + 4)
  | .Bit64 =>
    (byteAt content pointer).bind fun b0 =>
    (byteAt content (pointer + 1)).bind fun b1 =>
    (byteAt content (pointer + 2)).bind fun b2 =>
    (byteAt content (pointer + 3)).bind fun b3 =>
    (byteAt content (pointer + 4)).bind fun b4 =>
    (byteAt content (pointer + 5)).bind fun b5 =>
    (byteAt content (pointer + 6)).bind fun b6 =>
    (byteAt content (pointer + 7)).bind fun b7 =>
    .ok (endian.u64_from b0 b1 b2 b3 b4 b5 b6 b7, pointer + 8)

/-- `parse_program_header_offset`: word-size field, same shape as
`parse_entry_point`. -/
def parse_program_header_offset (pointer : Nat) (content : List Nat)
    (platform : ElfPlatformType) (endian : ElfEndianness) : PResult (Nat × Nat) :=
  match platform with
  | .Bit32 =>
    (byteAt content pointer).bind fun b0 =>
    (byteAt content (pointer + 1)).bind fun b1 =>
    (byteAt content (pointer + 2)).bind fun b2 =>
    (byteAt content (pointer + 3)).bind fun b3 =>
    .ok (endian.u32_from b0 b1 b2 b3, pointer + 4)
  | .Bit64 =>
    (byteAt content pointer).bind fun b0 =>
    (byteAt content (pointer + 1)).bind fun b1 =>
    (byteAt content (pointer + 2)).bind fun b2 =>
    (byteAt content (pointer + 3)).bind fun b3 =>
    (byteAt content (pointer + 4)).bind fun b4 =>
    (byteAt content (pointer + 5)).bind fun b5 =>
    (byteAt content (pointer + 6)).bind fun b6 =>
    (byteAt content (pointer + 7)).bind fun b7 =>
    .ok (endian.u64_from b0 b1 b2 b3 b4 b5 b6 b7, pointer + 8)

/-- `parse_section_header_offset`: word-size field, same shape as
`parse_entry_point`. -/
def parse_section_header_offset (pointer : Nat) (content : List Nat)
    (platform : ElfPlatformType) (endian : ElfEndianness) : PResult (Nat × Nat) :=
  match platform with
  | .Bit32 =>
    (byteAt content pointer).bind fun b0 =>
    (byteAt content (pointer + 1)).bind fun b1 =>
    (byteAt content (pointer + 2)).bind fun b2 =>
    (byteAt content (pointer + 3)).bind fun b3 =>
    .ok (endian.u32_from b0 b1 b2 b3, pointer + 4)
  | .Bit64 =>
    (byteAt content pointer).bind fun b0 =>
    (byteAt content (pointer + 1)).bind fun b1 =>
    (byteAt content (pointer + 2)).bind fun b2 =>
    (byteAt content (pointer + 3)).bind fun b3 =>
    (byteAt content (pointer + 4)).bind fun b4 =>
    (byteAt content (pointer + 5)).bind fun b5 =>
    (byteAt content (pointer + 6)).bind fun b6 =>
    (byteAt content (pointer + 7)).bind fun b7 =>
    .ok (endian.u64_from b0 b1 b2 b3 b4 b5 b6 b7, pointer + 8)

/-- `parse_flags`: four order-dependent bytes. -/
def parse_flags (pointer : Nat) (content : List Nat)
    (endian : ElfEndianness) : PResult (Nat × Nat) :=
  (byteAt content pointer).bind fun b0 =>
  (byteAt content (pointer + 1)).bind fun b1 =>
  (byteAt content (pointer + 2)).bind fun b2 =>
  (byteAt content (pointer + 3)).bind fun b3 =>
  .ok (endian.u32_from b0 b1 b2 b3, pointer + 4)

/-- `parse_header_size`: two order-dependent bytes. -/
def parse_header_size (pointer : Nat) (content : List Nat)
    (endian : ElfEndianness) : PResult (Nat × Nat) :=
  (byteAt content pointer).bind fun b0 =>
  (byteAt content (pointer + 1)).bind fun b1 =>
  .ok (endian.u16_from b0 b1, pointer + 2)

/-- `parse_program_header_entry_size`: two order-dependent bytes. -/
def parse_program_header_entry_size (pointer : Nat) (content : List Nat)
    (endian : ElfEndianness) : PResult (Nat × Nat) :=
  (byteAt content pointer).bind fun b0 =>
  (byteAt content (pointer + 1)).bind fun b1 =>
  .ok (endian.u16_from b0 b1, pointer + 2)

/-- `parse_program_header_entry_count`: two order-dependent bytes. -/
def parse_program_header_entry_count (pointer : Nat) (content : List Nat)
    (endian : ElfEndianness) : PResult (Nat × Nat) :=
  (byteAt content pointer).bind fun b0 =>
  (byteAt content (pointer + 1)).bind fun b1 =>
  .ok (endian.u16_from b0 b1, pointer + 2)

/-- `parse_section_header_entry_size`: two order-dependent bytes. -/
def parse_section_header_entry_size (pointer : Nat) (content : List Nat)
    (endian : ElfEndianness) : PResult (Nat × Nat) :=
  (byteAt content pointer).bind fun b0 =>
  (byteAt content (pointer + 1)).bind fun b1 =>
  .ok (endian.u16_from b0 b1, pointer + 2)

/-- `parse_section_header_entry_count`: two order-dependent bytes. -/
def parse_section_header_entry_count (pointer : Nat) (content : List Nat)
    (endian : ElfEndianness) : PResult (Nat × Nat) :=
  (byteAt content pointer).bind fun b0 =>
  (byteAt content (pointer + 1)).bind fun b1 =>
  .ok (endian.u16_from b0 b1, pointer + 2)

/-- `parse_section_header_sections_table_index`: two order-dependent
bytes. -/
def parse_section_header_sections_table_index (pointer : Nat) (content : List Nat)
    (endian : ElfEndianness) : PResult (Nat × Nat) :=
  (byteAt content pointer).bind fun b0 =>
  (byteAt content (pointer + 1)).bind fun b1 =>
  .ok (endian.u16_from b0 b1, pointer + 2)

/-- `parse_header`: the fixed-layout preamble decoded in strict order, the
byte order chosen by the data-order byte parameterizing every later
multi-byte field; any sub-parser failure aborts the whole header decode. -/
def parse_header (pointer : Nat) (content : List Nat) : PResult (ElfHeader × Nat) :=
  (parse_magic_number pointer content).bind fun (magic_number, p1) =>
  (parse_platform_type p1 content).bind fun (platform_type, p2) =>
  (parse_endianness p2 content).bind fun (endianness, p3) =>
  (parse_elf_header_version p3 content).bind fun (elf_header_version, p4) =>
  (parse_target_system_abi p4 content).bind fun (target_system_abi, p5) =>
  (parse_target_abi_version p5 content).bind fun (target_abi_version, p6) =>
  (parse_reserved_padding p6 content).bind fun (_reserved_padding, p7) =>
  (parse_object_file_type p7 content endianness).bind fun (object_file_type, p8) =>
  (parse_instruction_set p8 content endianness).bind fun (instruction_set, p9) =>
  (parse_elf_version p9 content endianness).bind fun (elf_version, p10) =>
  (parse_entry_point p10 content platform_type endianness).bind fun (entry_point, p11) =>
  (parse_program_header_offset p11 content platform_type endianness).bind
    fun (program_header_offset, p12) =>
  (parse_section_header_offset p12 content platform_type endianness).bind
    fun (section_header_offset, p13) =>
  (parse_flags p13 content endianness).bind fun (flags, p14) =>
  (parse_header_size p14 content endianness).bind fun (header_size, p15) =>
  (parse_program_header_entry_size p15 content endianness).bind
    fun (program_header_entry_size, p16) =>
  (parse_program_header_entry_count p16 content endianness).bind
    fun (program_header_entry_count, p17) =>
  (parse_section_header_entry_size p17 content endianness).bind
    fun (section_header_entry_size, p18) =>
  (parse_section_header_entry_count p18 content endianness).bind
    fun (section_header_entry_count, p19) =>
  (parse_section_header_sections_table_index p19 content endianness).bind
    fun (section_header_sections_table_index, p20) =>
  PResult.ok
    ({ magic_number, platform_type, endianness, elf_header_version,
       target_system_abi, target_abi_version, object_file_type,
       instruction_set, elf_version, entry_point, program_header_offset,
       section_header_offset, flags, header_size, program_header_entry_size,
       program_header_entry_count, section_header_entry_size,
       section_header_entry_count, section_header_sections_table_index },
     p20)

/-- `ElfSegmentFlags` from the source: exact single-value match, with a
payload-less `PfUnknown` default. -/
inductive ElfSegmentFlags where
  | PfX
  | PfW
  | PfR
  | PfUnknown
deriving DecidableEq

/-- The `match` arms of `parse_segment_flags`: only the exact raw values
1, 2 and 4 are recognized; everything else is the `PfUnknown` sentinel,
which carries no payload. -/
def flagsOf (v : Nat) : ElfSegmentFlags :=
  if v = 0x1 then .PfX
  else if v = 0x2 then .PfW
  else if v = 0x4 then .PfR
  else .PfUnknown

/-- `ElfSegmentType` from the source: named codes 0..7, the four exact
reserved-range boundary codes, and a payload-less `PtUnknown` default. -/
inductive ElfSegmentType where
  | PtNull
  | PtLoad
  | PtDynamic
  | PtInterp
  | PtNote
  | PtShlib
  | PtPhdr
  | PtTls
  | PtLoos
  | PtHios
  | PtLoproc
  | PtHiproc
  | PtUnknown
deriving DecidableEq

/-- The `match` arms of `parse_segment_type` in source order.  Note the
reserved ranges are matched only at their exact boundary values
(`0x60000000`, `0x6FFFFFFF`, `0x70000000`, `0x7FFFFFFF`); interior codes
fall to `PtUnknown`, which carries no payload. -/
def segTypeOf (v : Nat) : ElfSegmentType :=
  if v = 0x00000000 then .PtNull
  else if v = 0x00000001 then .PtLoad
  else if v = 0x00000002 then .PtDynamic
  else if v = 0x00000003 then .PtInterp
  else if v = 0x00000004 then .PtNote
  else if v = 0x00000005 then .PtShlib
  else if v = 0x00000006 then .PtPhdr
  else if v = 0x00000007 then .PtTls
  else if v = 0x60000000 then .PtLoos
  else if v = 0x6FFFFFFF then .PtHios
  else if v = 0x70000000 then .PtLoproc
  else if v = 0x7FFFFFFF then .PtHiproc
  else .PtUnknown

/-- `ElfProgramHeaderEntry` from the source (numeric newtypes as `Nat`). -/
structure ElfProgramHeaderEntry where
  segment_type : ElfSegmentType
  segment_flags : ElfSegmentFlags
  segment_offset : Nat
  segment_vaddr : Nat
  segment_paddr : Nat
  segment_file_size : Nat
  segment_memory_size : Nat
  segment_allignment : Nat
deriving DecidableEq

/-- `parse_segment_usize_t`: a word-size unsigned field (4 bytes on
32-bit, 8 on 64-bit). -/
def parse_segment_usize_t (pointer : Nat) (content : List Nat)
    (endian : ElfEndianness) (platform : ElfPlatformType) : PResult (Nat × Nat) :=
  match platform with
  | .Bit32 =>
    (byteAt content pointer).bind fun b0 =>
    (byteAt content (pointer + 1)).bind fun b1 =>
    (byteAt content (pointer + 2)).bind fun b2 =>
    (byteAt content (pointer + 3)).bind fun b3 =>
    .ok (endian.u32_from b0 b1 b2 b3, pointer + 4)
  | .Bit64 =>
    (byteAt content pointer).bind fun b0 =>
    (byteAt content (pointer + 1)).bind fun b1 =>
    (byteAt content (pointer + 2)).bind fun b2 =>
    (byteAt content (pointer + 3)).bind fun b3 =>
    (byteAt content (pointer + 4)).bind fun b4 =>
    (byteAt content (pointer + 5)).bind fun b5 =>
    (byteAt content (pointer + 6)).bind fun b6 =>
    (byteAt content (pointer + 7)).bind fun b7 =>
    .ok (endian.u64_from b0 b1 b2 b3 b4 b5 b6 b7, pointer + 8)

/-- `parse_segment_allignment` (source spelling kept). -/
def parse_segment_allignment (pointer : Nat) (content : List Nat)
    (endian : ElfEndianness) (platform : ElfPlatformType) : PResult (Nat × Nat) :=
  parse_segment_usize_t pointer content endian platform

/-- `parse_segment_memory_size`. -/
def parse_segment_memory_size (pointer : Nat) (content : List Nat)
    (endian : ElfEndianness) (platform : ElfPlatformType) : PResult (Nat × Nat) :=
  parse_segment_usize_t pointer content endian platform

/-- `parse_segment_file_size`. -/
def parse_segment_file_size (pointer : Nat) (content : List Nat)
    (endian : ElfEndianness) (platform : ElfPlatformType) : PResult (Nat × Nat) :=
  parse_segment_usize_t pointer content endian platform

/-- `parse_segment_paddr`. -/
def parse_segment_paddr (pointer : Nat) (content : List Nat)
    (endian : ElfEndianness) (platform : ElfPlatformType) : PResult (Nat × Nat) :=
  parse_segment_usize_t pointer content endian platform

/-- `parse_segment_vaddr`. -/
def parse_segment_vaddr (pointer : Nat) (content : List Nat)
    (endian : ElfEndianness) (platform : ElfPlatformType) : PResult (Nat × Nat) :=
  parse_segment_usize_t pointer content endian platform

/-- `parse_segment_offset`. -/
def parse_segment_offset (pointer : Nat) (content : List Nat)
    (endian : ElfEndianness) (platform : ElfPlatformType) : PResult (Nat × Nat) :=
  parse_segment_usize_t pointer content endian platform

/-- `parse_segment_flags`: four order-dependent bytes mapped through the
exact-match table; never fails on recognized-or-not values. -/
def parse_segment_flags (pointer : Nat) (content : List Nat)
    (endian : ElfEndianness) : PResult (ElfSegmentFlags × Nat) :=
  (byteAt content pointer).bind fun b0 =>
  (byteAt content (pointer + 1)).bind fun b1 =>
  (byteAt content (pointer + 2)).bind fun b2 =>
  (byteAt content (pointer + 3)).bind fun b3 =>
  .ok (flagsOf (endian.u32_from b0 b1 b2 b3), pointer + 4)

/-- `parse_segment_type`: four order-dependent bytes mapped through the
type table; never fails on unrecognized codes. -/
def parse_segment_type (pointer : Nat) (content : List Nat)
    (endian : ElfEndianness) : PResult (ElfSegmentType × Nat) :=
  (byteAt content pointer).bind fun b0 =>
  (byteAt content (pointer + 1)).bind fun b1 =>
  (byteAt content (pointer + 2)).bind fun b2 =>
  (byteAt content (pointer + 3)).bind fun b3 =>
  .ok (segTypeOf (endian.u32_from b0 b1 b2 b3), pointer + 4)

/-- `parse_program_header_entry`: the flags field sits right after the
type on 64-bit targets but after the sizes on 32-bit targets; the source
models this with a defaulted mutable overwritten by one of two
conditionals. -/
def parse_program_header_entry (pointer : Nat) (content : List Nat)
    (endian : ElfEndianness) (platform : ElfPlatformType) :
    PResult (ElfProgramHeaderEntry × Nat) :=
  (parse_segment_type pointer content endian).bind fun (segment_type, p1) =>
  (match platform with
   | .Bit64 => parse_segment_flags p1 content endian
   | .Bit32 => .ok (ElfSegmentFlags.PfUnknown, p1)).bind fun (flags64, p2) =>
  (parse_segment_offset p2 content endian platform).bind fun (segment_offset, p3) =>
  (parse_segment_vaddr p3 content endian platform).bind fun (segment_vaddr, p4) =>
  (parse_segment_paddr p4 content endian platform).bind fun (segment_paddr, p5) =>
  (parse_segment_file_size p5 content endian platform).bind fun (segment_file_size, p6) =>
  (parse_segment_memory_size p6 content endian platform).bind
    fun (segment_memory_size, p7) =>
  (match platform with
   | .Bit32 => parse_segment_flags p7 content endian
   | .Bit64 => .ok (flags64, p7)).bind fun (segment_flags, p8) =>
  (parse_segment_allignment p8 content endian platform).bind
    fun (segment_allignment, p9) =>
  PResult.ok
    ({ segment_type, segment_flags, segment_offset, segment_vaddr,
       segment_paddr, segment_file_size, segment_memory_size,
       segment_allignment }, p9)

/-- The entry loop of `parse_program_header`: an `Err` from an entry is
logged and the entry dropped while iteration continues from the pointer
the failed entry left behind; a panic propagates. -/
def parse_program_header_loop (count : Nat) (pointer : Nat) (content : List Nat)
    (endian : ElfEndianness) (platform : ElfPlatformType) :
    PResult (List ElfProgramHeaderEntry × Nat) :=
  match count with
  | 0 => .ok ([], pointer)
  | n + 1 =>
    match parse_program_header_entry pointer content endian platform with
    | .ok (entry, p1) =>
      (parse_program_header_loop n p1 content endian platform).bind
        fun (rest, p2) => .ok (entry :: rest, p2)
    | .err _ p1 => parse_program_header_loop n p1 content endian platform
    | .crash => .crash

/-- `parse_program_header`: decodes `entry_count` entries with the
drop-on-`Err` policy (the `ElfProgramHeader` wrapper is its `inner`
vector). -/
def parse_program_header (pointer : Nat) (content : List Nat)
    (prog_header_entry_count : Nat) (endian : ElfEndianness)
    (platform : ElfPlatformType) : PResult (List ElfProgramHeaderEntry × Nat) :=
  parse_program_header_loop prog_header_entry_count pointer content endian platform

/-- `ElfSectionFlags` from the source. -/
inductive ElfSectionFlags where
  | ShfWrite
  | ShfAlloc
  | ShfExecinstr
  | ShfMerge
  | ShfStrings
  | ShfInfoLink
  | ShfLinkOrder
  | ShfOsNonconforming
  | ShfGroup
  | ShfTls
  | ShfMaskos
  | ShfMaskproc
  | ShfOrdered
  | ShfExclude
  | ShfNull
deriving DecidableEq

/-- The `match` arms of `parse_section_flags`: exact single-value match
with a payload-less `ShfNull` default. -/
def sectionFlagsOf (v : Nat) : ElfSectionFlags :=
  if v = 0x1 then .ShfWrite
  else if v = 0x2 then .ShfAlloc
  else if v = 0x4 then .ShfExecinstr
  else if v = 0x10 then .ShfMerge
  else if v = 0x20 then .ShfStrings
  else if v = 0x40 then .ShfInfoLink
  else if v = 0x80 then .ShfLinkOrder
  else if v = 0x100 then .ShfOsNonconforming
  else if v = 0x200 then .ShfGroup
  else if v = 0x400 then .ShfTls
  else if v = 0x0FF00000 then .ShfMaskos
  else if v = 0xF0000000 then .ShfMaskproc
  else if v = 0x4000000 then .ShfOrdered
  else if v = 0x8000000 then .ShfExclude
  else .ShfNull

/-- `ElfSectionHeaderType` from the source. -/
inductive ElfSectionHeaderType where
  | ShtNull
  | ShtProgbits
  | ShtSymtab
  | ShtStrtab
  | ShtRela
  | ShtHash
  | ShtDynamic
  | ShtNote
  | ShtNobits
  | ShtRel
  | ShtShlib
  | ShtDynsym
  | ShtInitArray
  | ShtFiniArray
  | ShtPreinitArray
  | ShtGroup
  | ShtSymtabShndx
  | ShtNum
  | ShtLoos
deriving DecidableEq

/-- The `match` arms of `parse_section_header_type`: named codes plus the
`ShtNull` default for anything unrecognized. -/
def sectionTypeOf (v : Nat) : ElfSectionHeaderType :=
  if v = 0x0 then .ShtNull
  else if v = 0x1 then .ShtProgbits
  else if v = 0x2 then .ShtSymtab
  else if v = 0x3 then .ShtStrtab
  else if v = 0x4 then .ShtRela
  else if v = 0x5 then .ShtHash
  else if v = 0x6 then .ShtDynamic
  else if v = 0x7 then .ShtNote
  else if v = 0x8 then .ShtNobits
  else if v = 0x9 then .ShtRel
  else if v = 0x0A then .ShtShlib
  else if v = 0x0B then .ShtDynsym
  else if v = 0x0E then .ShtInitArray
  else if v = 0x0F then .ShtFiniArray
  else if v = 0x10 then .ShtPreinitArray
  else if v = 0x11 then .ShtGroup
  else if v = 0x12 then .ShtSymtabShndx
  else if v = 0x13 then .ShtNum
  else if v = 0x60000000 then .ShtLoos
  else .ShtNull

/-- `ElfSectionHeaderEntry` from the source (numeric newtypes as `Nat`,
the derived `section_name` as `String`, default `""`). -/
structure ElfSectionHeaderEntry where
  section_name_offset : Nat
  section_name : String
  section_header_type : ElfSectionHeaderType
  section_flags : ElfSectionFlags
  section_addr : Nat
  section_offset : Nat
  section_size : Nat
  section_link : Nat
  section_info : Nat
  section_addr_allign : Nat
  section_entry_size : Nat
deriving DecidableEq

/-- `parse_section_entry_size`. -/
def parse_section_entry_size (pointer : Nat) (content : List Nat)
    (endian : ElfEndianness) (platform : ElfPlatformType) : PResult (Nat × Nat) :=
  parse_segment_usize_t pointer content endian platform

/-- `parse_section_addr_allignment` (source spelling kept). -/
def parse_section_addr_allignment (pointer : Nat) (content : List Nat)
    (endian : ElfEndianness) (platform : ElfPlatformType) : PResult (Nat × Nat) :=
  parse_segment_usize_t pointer content endian platform

/-- `parse_section_info`: four order-dependent bytes. -/
def parse_section_info (pointer : Nat) (content : List Nat)
    (endian : ElfEndianness) : PResult (Nat × Nat) :=
  (byteAt content pointer).bind fun b0 =>
  (byteAt content (pointer + 1)).bind fun b1 =>
  (byteAt content (pointer + 2)).bind fun b2 =>
  (byteAt content (pointer + 3)).bind fun b3 =>
  .ok (endian.u32_from b0 b1 b2 b3, pointer + 4)

/-- `parse_section_link`: four order-dependent bytes. -/
def parse_section_link (pointer : Nat) (content : List Nat)
    (endian : ElfEndianness) : PResult (Nat × Nat) :=
  (byteAt content pointer).bind fun b0 =>
  (byteAt content (pointer + 1)).bind fun b1 =>
  (byteAt content (pointer + 2)).bind fun b2 =>
  (byteAt content (pointer + 3)).bind fun b3 =>
  .ok (endian.u32_from b0 b1 b2 b3, pointer + 4)

/-- `parse_section_size`. -/
def parse_section_size (pointer : Nat) (content : List Nat)
    (endian : ElfEndianness) (platform : ElfPlatformType) : PResult (Nat × Nat) :=
  parse_segment_usize_t pointer content endian platform

/-- `parse_section_offset`. -/
def parse_section_offset (pointer : Nat) (content : List Nat)
    (endian : ElfEndianness) (platform : ElfPlatformType) : PResult (Nat × Nat) :=
  parse_segment_usize_t pointer content endian platform

/-- `parse_section_addr`. -/
def parse_section_addr (pointer : Nat) (content : List Nat)
    (endian : ElfEndianness) (platform : ElfPlatformType) : PResult (Nat × Nat) :=
  parse_segment_usize_t pointer content endian platform

/-- `parse_section_flags`: word-size field mapped through the exact-match
table; never fails. -/
def parse_section_flags (pointer : Nat) (content : List Nat)
    (endian : ElfEndianness) (platform : ElfPlatformType) :
    PResult (ElfSectionFlags × Nat) :=
  (parse_segment_usize_t pointer content endian platform).bind fun (flags, p1) =>
  .ok (sectionFlagsOf flags, p1)

/-- `parse_section_header_type`: four order-dependent bytes mapped
through the type table; never fails. -/
def parse_section_header_type (pointer : Nat) (content : List Nat)
    (endian : ElfEndianness) : PResult (ElfSectionHeaderType × Nat) :=
  (byteAt content pointer).bind fun b0 =>
  (byteAt content (pointer + 1)).bind fun b1 =>
  (byteAt content (pointer + 2)).bind fun b2 =>
  (byteAt content (pointer + 3)).bind fun b3 =>
  .ok (sectionTypeOf (endian.u32_from b0 b1 b2 b3), pointer + 4)

/-- `parse_section_name_offset`: four order-dependent bytes. -/
def parse_section_name_offset (pointer : Nat) (content : List Nat)
    (endian : ElfEndianness) : PResult (Nat × Nat) :=
  (byteAt content pointer).bind fun b0 =>
  (byteAt content (pointer + 1)).bind fun b1 =>
  (byteAt content (pointer + 2)).bind fun b2 =>
  (byteAt content (pointer + 3)).bind fun b3 =>
  .ok (endian.u32_from b0 b1 b2 b3, pointer + 4)

/-- `parse_section_header_entry`: the eleven fields in source order; the
name is left at its default and filled in later by the table decoder. -/
def parse_section_header_entry (pointer : Nat) (content : List Nat)
    (endian : ElfEndianness) (platform : ElfPlatformType) :
    PResult (ElfSectionHeaderEntry × Nat) :=
  (parse_section_name_offset pointer content endian).bind
    fun (section_name_offset, p1) =>
  (parse_section_header_type p1 content endian).bind
    fun (section_header_type, p2) =>
  (parse_section_flags p2 content endian platform).bind fun (section_flags, p3) =>
  (parse_section_addr p3 content endian platform).bind fun (section_addr, p4) =>
  (parse_section_offset p4 content endian platform).bind fun (section_offset, p5) =>
  (parse_section_size p5 content endian platform).bind fun (section_size, p6) =>
  (parse_section_link p6 content endian).bind fun (section_link, p7) =>
  (parse_section_info p7 content endian).bind fun (section_info, p8) =>
  (parse_section_addr_allignment p8 content endian platform).bind
    fun (section_addr_allign, p9) =>
  (parse_section_entry_size p9 content endian platform).bind
    fun (section_entry_size, p10) =>
  PResult.ok
    ({ section_name_offset, section_name := "", section_header_type,
       section_flags, section_addr, section_offset, section_size,
       section_link, section_info, section_addr_allign,
       section_entry_size }, p10)

/-- The entry loop of `parse_section_header`: the `?` operator makes the
first entry failure abort the whole decode. -/
def parse_section_header_loop (count : Nat) (pointer : Nat) (content : List Nat)
    (endian : ElfEndianness) (platform : ElfPlatformType) :
    PResult (List ElfSectionHeaderEntry × Nat) :=
  match count with
  | 0 => .ok ([], pointer)
  | n + 1 =>
    (parse_section_header_entry pointer content endian platform).bind
      fun (entry, p1) =>
    (parse_section_header_loop n p1 content endian platform).bind
      fun (rest, p2) => .ok (entry :: rest, p2)

/-- Rust's `slice::split` on the NUL byte: the separators are dropped and
a trailing separator yields a trailing empty piece. -/
def splitOnZero : List Nat → List (List Nat)
  | [] => [[]]
  | b :: rest =>
    if b = 0 then [] :: splitOnZero rest
    else
      match splitOnZero rest with
      | s :: ss => (b :: s) :: ss
      | [] => [[b]]

/-- The `iter_mut().zip(names)` assignment of `parse_section_header`:
names are zipped positionally against the entries in table order,
truncating at the shorter of the two lists. -/
def assignNames : List ElfSectionHeaderEntry → List String → List ElfSectionHeaderEntry
  | [], _ => []
  | es, [] => es
  | e :: es, n :: ns => { e with section_name := n } :: assignNames es ns

/-- `parse_section_header`: decodes `entry_count` entries (first failure
fatal), then locates the string-table entry at `sections_names_index`
(unchecked `Vec` indexing), slices its `[offset, offset+size)` range out
of the raw image (unchecked slicing), splits it on NUL bytes and zips the
pieces positionally against the entries. -/
def parse_section_header (pointer : Nat) (content : List Nat)
    (entry_count : Nat) (sections_names_index : Nat) (endian : ElfEndianness)
    (platform : ElfPlatformType) : PResult (List ElfSectionHeaderEntry × Nat) :=
  (parse_section_header_loop entry_count pointer content endian platform).bind
    fun (entries, p1) =>
  match entries.get? sections_names_index with
  | none => .crash
  | some sect =>
    if sect.section_offset + sect.section_size ≤ content.length then
      let bytes := (content.drop sect.section_offset).take sect.section_size
      let names := (splitOnZero bytes).map stringOfBytes
      .ok (assignNames entries names, p1)
    else .crash

/-- The section-name contract of the specification (§4.5): the name of an
entry is the NUL-terminated string starting at the string-table base plus
the entry's `name_offset`.  This follows the spec's words, for comparison
with the positional zip of the source. -/
def specResolveName (table : List Nat) (off : Nat) : String :=
  stringOfBytes ((table.drop off).takeWhile (fun b => b != 0))

/-! ### Basic facts about the result monad and byte reads -/

theorem PResult.bind_eq_ok {α β : Type} {x : PResult α} {f : α → PResult β} {b : β}
    (h : x.bind f = .ok b) : ∃ a, x = .ok a ∧ f a = .ok b := by
  cases x with
  | ok a => exact ⟨a, rfl, h⟩
  | err m p => simp only [PResult.bind_err] at h; exact PResult.noConfusion h
  | crash => simp only [PResult.bind_crash] at h; exact PResult.noConfusion h

theorem byteAt_eq_ok {c : List Nat} {i b : Nat} (h : byteAt c i = .ok b) :
    c.get? i = some b := by
  unfold byteAt at h
  cases hg : c.get? i with
  | none => rw [hg] at h; exact PResult.noConfusion h
  | some x => rw [hg] at h; cases h; rfl

theorem byteAt_lt_length {c : List Nat} {i b : Nat} (h : byteAt c i = .ok b) :
    i < c.length :=
  (List.get?_eq_some.mp (byteAt_eq_ok h)).1

theorem byteAt_getD {c : List Nat} {i b : Nat} (h : byteAt c i = .ok b) :
    c.getD i 0 = b := by
  have hg := byteAt_eq_ok h
  rw [List.getD_eq_getElem?_getD, ← List.get?_eq_getElem?, hg]
  rfl

theorem byteAt_of_lt {c : List Nat} {i : Nat} (h : i < c.length) :
    byteAt c i = .ok (c.getD i 0) := by
  unfold byteAt
  cases hg : c.get? i with
  | none => rw [List.get?_eq_none] at hg; omega
  | some x =>
    have : c.getD i 0 = x := by
      rw [List.getD_eq_getElem?_getD, ← List.get?_eq_getElem?, hg]; rfl
    rw [this]

/-! ### Concrete inputs used by the claims -/

/-- A well-formed synthetic 64-bit little-endian header: magic, class 2,
order 1, header version 1, System V, padding, `ET_EXEC`, AMD x86-64,
format version 1, entry point `0x401000`, program-header table at 64 with
entry size 56, section-header entry size 64. -/
def buf64 : List Nat :=
  [0x7f, 0x45, 0x4c, 0x46, 0x02, 0x01, 0x01, 0x00,
   0x00, 0x00, 0x00, 0x00, 0x00, 0x00, 0x00, 0x00,
   0x02, 0x00, 0x3e, 0x00, 0x01, 0x00, 0x00, 0x00,
   0x00, 0x10, 0x40, 0x00, 0x00, 0x00, 0x00, 0x00,
   0x40, 0x00, 0x00, 0x00, 0x00, 0x00, 0x00, 0x00,
   0x00, 0x00, 0x00, 0x00, 0x00, 0x00, 0x00, 0x00,
   0x00, 0x00, 0x00, 0x00, 0x40, 0x00, 0x38, 0x00,
   0x00, 0x00, 0x40, 0x00, 0x00, 0x00, 0x00, 0x00]

/-- The header decoded from `buf64`. -/
def hdr64 : ElfHeader :=
  { magic_number := stringOfBytes [0x7f, 0x45, 0x4c, 0x46]
    platform_type := .Bit64
    endianness := .Little
    elf_header_version := 1
    target_system_abi := .SystemV
    target_abi_version := 0
    object_file_type := .EtExec
    instruction_set := .AmdX86_64
    elf_version := 1
    entry_point := 0x401000
    program_header_offset := 64
    section_header_offset := 0
    flags := 0
    header_size := 64
    program_header_entry_size := 56
    program_header_entry_count := 0
    section_header_entry_size := 64
    section_header_entry_count := 0
    section_header_sections_table_index := 0 }

/-- A well-formed synthetic 32-bit little-endian header (x86, entry point
`0x401000`, program-header table at 52 with entry size 32). -/
def buf32 : List Nat :=
  [0x7f, 0x45, 0x4c, 0x46, 0x01, 0x01, 0x01, 0x00,
   0x00, 0x00, 0x00, 0x00, 0x00, 0x00, 0x00, 0x00,
   0x02, 0x00, 0x03, 0x00, 0x01, 0x00, 0x00, 0x00,
   0x00, 0x10, 0x40, 0x00, 0x34, 0x00, 0x00, 0x00,
   0x00, 0x00, 0x00, 0x00, 0x00, 0x00, 0x00, 0x00,
   0x34, 0x00, 0x20, 0x00, 0x00, 0x00, 0x28, 0x00,
   0x00, 0x00, 0x00, 0x00]

/-- The header decoded from `buf32`. -/
def hdr32 : ElfHeader :=
  { magic_number := stringOfBytes [0x7f, 0x45, 0x4c, 0x46]
    platform_type := .Bit32
    endianness := .Little
    elf_header_version := 1
    target_system_abi := .SystemV
    target_abi_version := 0
    object_file_type := .EtExec
    instruction_set := .X86
    elf_version := 1
    entry_point := 0x401000
    program_header_offset := 52
    section_header_offset := 0
    flags := 0
    header_size := 52
    program_header_entry_size := 32
    program_header_entry_count := 0
    section_header_entry_size := 40
    section_header_entry_count := 0
    section_header_sections_table_index := 0 }

/-- First section entry of the name-resolution scenario: `name_offset` 6,
string-table type, placed at file offset 80 with size 12 (all fields
little-endian, 32-bit layout, 40 bytes). -/
def c2entry0bytes : List Nat :=
  [0x06, 0x00, 0x00, 0x00, 0x03, 0x00, 0x00, 0x00,
   0x00, 0x00, 0x00, 0x00, 0x00, 0x00, 0x00, 0x00,
   0x50, 0x00, 0x00, 0x00, 0x0c, 0x00, 0x00, 0x00,
   0x00, 0x00, 0x00, 0x00, 0x00, 0x00, 0x00, 0x00,
   0x00, 0x00, 0x00, 0x00, 0x00, 0x00, 0x00, 0x00]

/-- The string-table bytes `".text\x00.data\x00"`. -/
def c2strtab : List Nat :=
  [0x2e, 0x74, 0x65, 0x78, 0x74, 0x00, 0x2e, 0x64, 0x61, 0x74, 0x61, 0x00]

/-- Section-table image: entry 0 (`name_offset` 6), entry 1 (all zero,
`name_offset` 0), then the string table at offset 80. -/
def c2buf : List Nat := c2entry0bytes ++ List.replicate 40 0 ++ c2strtab

/-- Entry 0 as the source decodes and names it. -/
def c2decoded0 : ElfSectionHeaderEntry :=
  { section_name_offset := 6
    section_name := ".text"
    section_header_type := .ShtStrtab
    section_flags := .ShfNull
    section_addr := 0
    section_offset := 80
    section_size := 12
    section_link := 0
    section_info := 0
    section_addr_allign := 0
    section_entry_size := 0 }

/-- Entry 1 as the source decodes and names it. -/
def c2decoded1 : ElfSectionHeaderEntry :=
  { section_name_offset := 0
    section_name := ".data"
    section_header_type := .ShtNull
    section_flags := .ShfNull
    section_addr := 0
    section_offset := 0
    section_size := 0
    section_link := 0
    section_info := 0
    section_addr_allign := 0
    section_entry_size := 0 }

/-- C1.  The claim says every multi-byte read of width W fails with a
defined, catchable `OutOfBounds` error when `position + W` exceeds the
buffer length and never crashes the decode.  The code instead performs
unchecked indexing: on each of the widths 2, 4 and 8 a truncated buffer
makes the read panic (`crash`), not return a catchable error value. -/
theorem c1_code_bug :
    parse_magic_number 0 [0x7f, 0x45] = .crash ∧
    parse_header_size 0 [0x00] .Little = .crash ∧
    parse_flags 0 [0x00, 0x00, 0x00] .Little = .crash ∧
    parse_segment_usize_t 0 [0x00, 0x00, 0x00, 0x00] .Little .Bit64 = .crash := by
  refine ⟨rfl, rfl, rfl, rfl⟩

/-- C2.  The claim (the spec's §4.5 contract) says each entry's name is
the NUL-terminated string at string-table base plus the entry's
`name_offset`; for table `".text\x00.data\x00"` and offsets 6 and 0 the
names must be `.data` and `.text`.  The source instead zips the NUL-split
pieces positionally against the entries in table order, so entry 0 (offset
6) gets `.text` and entry 1 (offset 0) gets `.data` — exactly swapped
relative to the offset-indexed contract. -/
theorem c2_code_bug :
    parse_section_header 0 c2buf 2 0 .Little .Bit32 =
      .ok ([c2decoded0, c2decoded1], 80) ∧
    c2decoded0.section_name_offset = 6 ∧
    c2decoded1.section_name_offset = 0 ∧
    c2decoded0.section_name = ".text" ∧
    c2decoded1.section_name = ".data" ∧
    specResolveName c2strtab 6 = ".data" ∧
    specResolveName c2strtab 0 = ".text" ∧
    (".text" : String) ≠ ".data" := by
  refine ⟨by decide, rfl, rfl, rfl, rfl, by decide, by decide, by decide⟩

/-- C3, counterexample.  The raw code `0x60000005` lies inside the
OS-specific reserved range `0x60000000`–`0x6FFFFFFF`, so the claim maps it
to the OS-specific reserved-range variant; the code matches only the exact
boundary values and yields the payload-less `PtUnknown` sentinel instead. -/
theorem c3_counterexample :
    parse_segment_type 0 [0x05, 0x00, 0x00, 0x60] .Little = .ok (.PtUnknown, 4) ∧
    ElfSegmentType.PtUnknown ≠ ElfSegmentType.PtLoos ∧
    ElfSegmentType.PtUnknown ≠ ElfSegmentType.PtHios := by
  refine ⟨by decide, by decide, by decide⟩

/-- C6, counterexample.  The claim says every unrecognized segment-flags
value maps to an unknown-flags sentinel carrying the original raw value.
The code's `PfUnknown` variant has no payload: the distinct raw values
`0x6` and `0x8` decode to the very same value, so no sentinel carrying the
raw value exists. -/
theorem c6_counterexample :
    parse_segment_flags 0 [0x06, 0x00, 0x00, 0x00] .Little = .ok (.PfUnknown, 4) ∧
    parse_segment_flags 0 [0x08, 0x00, 0x00, 0x00] .Little = .ok (.PfUnknown, 4) ∧
    (0x06 : Nat) ≠ 0x08 := by
  refine ⟨by decide, by decide, by decide⟩

/-- C4, counterexample.  The claim says a per-entry decode failure during
program-header decoding drops only that entry while iteration continues
and the overall result is still returned.  On a 56-byte image with
`entry_count = 2` (64-bit layout) the second entry's first read fails —
the only failure an entry decode can actually produce — and the whole
decode aborts with a panic instead of returning a one-entry result. -/
theorem c4_counterexample :
    parse_program_header 0 (List.replicate 56 0) 2 .Little .Bit64 = .crash := by
  decide

/-- `buf64` with the program-header geometry replaced: table offset
`0xFFFF`, entry size 56, entry count 2 — far beyond the 64-byte image. -/
def c8bad : List Nat :=
  [0x7f, 0x45, 0x4c, 0x46, 0x02, 0x01, 0x01, 0x00,
   0x00, 0x00, 0x00, 0x00, 0x00, 0x00, 0x00, 0x00,
   0x02, 0x00, 0x3e, 0x00, 0x01, 0x00, 0x00, 0x00,
   0x00, 0x10, 0x40, 0x00, 0x00, 0x00, 0x00, 0x00,
   0xff, 0xff, 0x00, 0x00, 0x00, 0x00, 0x00, 0x00,
   0x00, 0x00, 0x00, 0x00, 0x00, 0x00, 0x00, 0x00,
   0x00, 0x00, 0x00, 0x00, 0x40, 0x00, 0x38, 0x00,
   0x02, 0x00, 0x40, 0x00, 0x00, 0x00, 0x00, 0x00]

/-- The header decoded from `c8bad`. -/
def c8hdr : ElfHeader :=
  { magic_number := stringOfBytes [0x7f, 0x45, 0x4c, 0x46]
    platform_type := .Bit64
    endianness := .Little
    elf_header_version := 1
    target_system_abi := .SystemV
    target_abi_version := 0
    object_file_type := .EtExec
    instruction_set := .AmdX86_64
    elf_version := 1
    entry_point := 0x401000
    program_header_offset := 0xffff
    section_header_offset := 0
    flags := 0
    header_size := 64
    program_header_entry_size := 56
    program_header_entry_count := 2
    section_header_entry_size := 64
    section_header_entry_count := 0
    section_header_sections_table_index := 0 }

/-- C8, counterexample.  The claim says every successfully decoded header
satisfies `offset + entry_size * entry_count ≤ image length` for each
table.  `parse_header` performs no such containment check: this 64-byte
image decodes successfully although its program-header geometry points far
past the end of the buffer. -/
theorem c8_counterexample :
    parse_header 0 c8bad = .ok (c8hdr, 64) ∧
    c8bad.length = 64 ∧
    c8hdr.program_header_offset +
      c8hdr.program_header_entry_size * c8hdr.program_header_entry_count >
      c8bad.length := by
  refine ⟨by decide, by decide, by decide⟩

/-- All-zero-field little-endian variant for the byte-order comparison:
class 2, order byte 1, header version 1, every later field zero. -/
def c9bufLE : List Nat :=
  [0x7f, 0x45, 0x4c, 0x46, 0x02, 0x01, 0x01, 0x00,
   0x00, 0x00, 0x00, 0x00, 0x00, 0x00, 0x00, 0x00,
   0x00, 0x00, 0x00, 0x00, 0x00, 0x00, 0x00, 0x00,
   0x00, 0x00, 0x00, 0x00, 0x00, 0x00, 0x00, 0x00,
   0x00, 0x00, 0x00, 0x00, 0x00, 0x00, 0x00, 0x00,
   0x00, 0x00, 0x00, 0x00, 0x00, 0x00, 0x00, 0x00,
   0x00, 0x00, 0x00, 0x00, 0x00, 0x00, 0x00, 0x00,
   0x00, 0x00, 0x00, 0x00, 0x00, 0x00, 0x00, 0x00]

/-- The same bytes with the order byte set to 2 (big-endian). -/
def c9bufBE : List Nat :=
  [0x7f, 0x45, 0x4c, 0x46, 0x02, 0x02, 0x01, 0x00,
   0x00, 0x00, 0x00, 0x00, 0x00, 0x00, 0x00, 0x00,
   0x00, 0x00, 0x00, 0x00, 0x00, 0x00, 0x00, 0x00,
   0x00, 0x00, 0x00, 0x00, 0x00, 0x00, 0x00, 0x00,
   0x00, 0x00, 0x00, 0x00, 0x00, 0x00, 0x00, 0x00,
   0x00, 0x00, 0x00, 0x00, 0x00, 0x00, 0x00, 0x00,
   0x00, 0x00, 0x00, 0x00, 0x00, 0x00, 0x00, 0x00,
   0x00, 0x00, 0x00, 0x00, 0x00, 0x00, 0x00, 0x00]

/-- The header decoded from `c9bufLE`. -/
def c9hdrLE : ElfHeader :=
  { magic_number := stringOfBytes [0x7f, 0x45, 0x4c, 0x46]
    platform_type := .Bit64
    endianness := .Little
    elf_header_version := 1
    target_system_abi := .SystemV
    target_abi_version := 0
    object_file_type := .EtNone
    instruction_set := .UnSpecified
    elf_version := 0
    entry_point := 0
    program_header_offset := 0
    section_header_offset := 0
    flags := 0
    header_size := 0
    program_header_entry_size := 0
    program_header_entry_count := 0
    section_header_entry_size := 0
    section_header_entry_count := 0
    section_header_sections_table_index := 0 }

/-- The header decoded from `c9bufBE`. -/
def c9hdrBE : ElfHeader :=
  { magic_number := stringOfBytes [0x7f, 0x45, 0x4c, 0x46]
    platform_type := .Bit64
    endianness := .Big
    elf_header_version := 1
    target_system_abi := .SystemV
    target_abi_version := 0
    object_file_type := .EtNone
    instruction_set := .UnSpecified
    elf_version := 0
    entry_point := 0
    program_header_offset := 0
    section_header_offset := 0
    flags := 0
    header_size := 0
    program_header_entry_size := 0
    program_header_entry_count := 0
    section_header_entry_size := 0
    section_header_entry_count := 0
    section_header_sections_table_index := 0 }

/-- C9, counterexample.  The claim says identical byte content decoded
with order byte 1 versus 2 yields a different integer for every multi-byte
numeric field.  These two buffers differ only in the order byte, both
decode successfully, yet the format-version, entry-point and flags fields
(all multi-byte) decode to equal values, because their bytes are
order-symmetric (all zero). -/
theorem c9_counterexample :
    c9bufBE = c9bufLE.set 5 2 ∧
    parse_header 0 c9bufLE = .ok (c9hdrLE, 64) ∧
    parse_header 0 c9bufBE = .ok (c9hdrBE, 64) ∧
    c9hdrLE.elf_version = c9hdrBE.elf_version ∧
    c9hdrLE.entry_point = c9hdrBE.entry_point ∧
    c9hdrLE.flags = c9hdrBE.flags := by
  refine ⟨by decide, by decide, by decide, rfl, rfl, rfl⟩

/-- C9, amended.  Decoding identical bytes under order byte 1 versus 2
applies opposite byte orders: the little-endian value of a byte sequence
equals the big-endian value of the reversed sequence, so a multi-byte
field decodes to different values exactly when its byte sequence is
asymmetric — order-symmetric contents (such as all-zero fields) decode
equal under both orders. -/
theorem c9_amended (b0 b1 b2 b3 b4 b5 b6 b7 : Nat) :
    ElfEndianness.u16_from .Little b0 b1 = ElfEndianness.u16_from .Big b1 b0 ∧
    ElfEndianness.u32_from .Little b0 b1 b2 b3 =
      ElfEndianness.u32_from .Big b3 b2 b1 b0 ∧
    ElfEndianness.u64_from .Little b0 b1 b2 b3 b4 b5 b6 b7 =
      ElfEndianness.u64_from .Big b7 b6 b5 b4 b3 b2 b1 b0 := by
  refine ⟨rfl, rfl, rfl⟩

/-- C3, amended.  For any in-bounds read, segment-type decoding succeeds
(never fails the entry), mapping codes 0–7 to their named variants and
only the four exact boundary codes of the reserved ranges to the range
variants; every other code — including interior reserved-range codes and
`0x99999999` — maps to the payload-less `PtUnknown` sentinel, which does
not carry the raw code. -/
theorem c3_amended (p : Nat) (c : List Nat) (e : ElfEndianness)
    (h : p + 4 ≤ c.length) :
    parse_segment_type p c e =
      .ok (segTypeOf (e.u32_from (c.getD p 0) (c.getD (p + 1) 0)
        (c.getD (p + 2) 0) (c.getD (p + 3) 0)), p + 4) ∧
    (segTypeOf 0 = .PtNull ∧ segTypeOf 1 = .PtLoad ∧ segTypeOf 2 = .PtDynamic ∧
     segTypeOf 3 = .PtInterp ∧ segTypeOf 4 = .PtNote ∧ segTypeOf 5 = .PtShlib ∧
     segTypeOf 6 = .PtPhdr ∧ segTypeOf 7 = .PtTls) ∧
    (segTypeOf 0x60000000 = .PtLoos ∧ segTypeOf 0x6FFFFFFF = .PtHios ∧
     segTypeOf 0x70000000 = .PtLoproc ∧ segTypeOf 0x7FFFFFFF = .PtHiproc) ∧
    segTypeOf 0x99999999 = .PtUnknown ∧
    (∀ v, v ≠ 0 → v ≠ 1 → v ≠ 2 → v ≠ 3 → v ≠ 4 → v ≠ 5 → v ≠ 6 → v ≠ 7 →
      v ≠ 0x60000000 → v ≠ 0x6FFFFFFF → v ≠ 0x70000000 → v ≠ 0x7FFFFFFF →
      segTypeOf v = .PtUnknown) := by
  refine ⟨?_, ⟨rfl, rfl, rfl, rfl, rfl, rfl, rfl, rfl⟩,
    ⟨by decide, by decide, by decide, by decide⟩, by decide, ?_⟩
  · unfold parse_segment_type
    rw [byteAt_of_lt (by omega), byteAt_of_lt (by omega),
      byteAt_of_lt (by omega), byteAt_of_lt (by omega)]
    simp only [PResult.bind_ok]
  · intro v h0 h1 h2 h3 h4 h5 h6 h7 h8 h9 h10 h11
    unfold segTypeOf
    rw [if_neg h0, if_neg h1, if_neg h2, if_neg h3, if_neg h4, if_neg h5,
      if_neg h6, if_neg h7, if_neg h8, if_neg h9, if_neg h10, if_neg h11]

/-- Witness for `c3_amended` on a concrete in-bounds read of code 7. -/
theorem c3_amended_witness :
    parse_segment_type 0 [0x07, 0x00, 0x00, 0x00] .Little = .ok (.PtTls, 4) := by
  have h := (c3_amended 0 [0x07, 0x00, 0x00, 0x00] .Little (by decide)).1
  rw [h]
  decide

/-- C6, amended.  For any in-bounds read, segment-flags decoding succeeds
(never fails the entry); only the exact raw values 1, 2 and 4 map to the
executable, writable and readable variants, and every other value —
including the combination `0x6` — maps to the payload-less `PfUnknown`
sentinel, which does not carry the raw value and is not a decomposed bit
set. -/
theorem c6_amended (p : Nat) (c : List Nat) (e : ElfEndianness)
    (h : p + 4 ≤ c.length) :
    parse_segment_flags p c e =
      .ok (flagsOf (e.u32_from (c.getD p 0) (c.getD (p + 1) 0)
        (c.getD (p + 2) 0) (c.getD (p + 3) 0)), p + 4) ∧
    flagsOf 1 = .PfX ∧ flagsOf 2 = .PfW ∧ flagsOf 4 = .PfR ∧
    flagsOf 6 = .PfUnknown ∧
    (∀ v, v ≠ 1 → v ≠ 2 → v ≠ 4 → flagsOf v = .PfUnknown) := by
  refine ⟨?_, rfl, rfl, rfl, by decide, ?_⟩
  · unfold parse_segment_flags
    rw [byteAt_of_lt (by omega), byteAt_of_lt (by omega),
      byteAt_of_lt (by omega), byteAt_of_lt (by omega)]
    simp only [PResult.bind_ok]
  · intro v h1 h2 h4
    unfold flagsOf
    rw [if_neg h1, if_neg h2, if_neg h4]

/-- Witness for `c6_amended` on a concrete in-bounds read of raw value 2. -/
theorem c6_amended_witness :
    parse_segment_flags 0 [0x02, 0x00, 0x00, 0x00] .Little = .ok (.PfW, 4) := by
  have h := (c6_amended 0 [0x02, 0x00, 0x00, 0x00] .Little (by decide)).1
  rw [h]
  decide

/-! ### The error channel of the two table decoders -/

/-- A result that is not a Rust `Err` (it may still be `ok` or a panic). -/
def PResult.noErr {α : Type} (r : PResult α) : Prop :=
  ∀ m q, r ≠ .err m q

theorem PResult.ok_noErr {α : Type} (a : α) : (PResult.ok a).noErr :=
  fun _ _ h => PResult.noConfusion h

theorem PResult.crash_noErr {α : Type} : (PResult.crash : PResult α).noErr :=
  fun _ _ h => PResult.noConfusion h

theorem PResult.noErr_bind {α β : Type} {x : PResult α} {f : α → PResult β}
    (hx : x.noErr) (hf : ∀ a, (f a).noErr) : (x.bind f).noErr := by
  cases x with
  | ok a => exact hf a
  | err m p => exact absurd rfl (hx m p)
  | crash => exact fun m q h => PResult.noConfusion h

theorem byteAt_noErr (c : List Nat) (i : Nat) : (byteAt c i).noErr := by
  unfold byteAt
  split
  · exact PResult.ok_noErr _
  · exact PResult.crash_noErr

theorem parse_segment_type_noErr (p : Nat) (c : List Nat) (e : ElfEndianness) :
    (parse_segment_type p c e).noErr := by
  unfold parse_segment_type
  refine PResult.noErr_bind (byteAt_noErr c p) fun b0 => ?_
  refine PResult.noErr_bind (byteAt_noErr c (p + 1)) fun b1 => ?_
  refine PResult.noErr_bind (byteAt_noErr c (p + 2)) fun b2 => ?_
  refine PResult.noErr_bind (byteAt_noErr c (p + 3)) fun b3 => ?_
  exact PResult.ok_noErr _

theorem parse_segment_flags_noErr (p : Nat) (c : List Nat) (e : ElfEndianness) :
    (parse_segment_flags p c e).noErr := by
  unfold parse_segment_flags
  refine PResult.noErr_bind (byteAt_noErr c p) fun b0 => ?_
  refine PResult.noErr_bind (byteAt_noErr c (p + 1)) fun b1 => ?_
  refine PResult.noErr_bind (byteAt_noErr c (p + 2)) fun b2 => ?_
  refine PResult.noErr_bind (byteAt_noErr c (p + 3)) fun b3 => ?_
  exact PResult.ok_noErr _

theorem parse_segment_usize_t_noErr (p : Nat) (c : List Nat) (e : ElfEndianness)
    (pl : ElfPlatformType) : (parse_segment_usize_t p c e pl).noErr := by
  unfold parse_segment_usize_t
  cases pl with
  | Bit32 =>
    refine PResult.noErr_bind (byteAt_noErr c p) fun b0 => ?_
    refine PResult.noErr_bind (byteAt_noErr c (p + 1)) fun b1 => ?_
    refine PResult.noErr_bind (byteAt_noErr c (p + 2)) fun b2 => ?_
    refine PResult.noErr_bind (byteAt_noErr c (p + 3)) fun b3 => ?_
    exact PResult.ok_noErr _
  | Bit64 =>
    refine PResult.noErr_bind (byteAt_noErr c p) fun b0 => ?_
    refine PResult.noErr_bind (byteAt_noErr c (p + 1)) fun b1 => ?_
    refine PResult.noErr_bind (byteAt_noErr c (p + 2)) fun b2 => ?_
    refine PResult.noErr_bind (byteAt_noErr c (p + 3)) fun b3 => ?_
    refine PResult.noErr_bind (byteAt_noErr c (p + 4)) fun b4 => ?_
    refine PResult.noErr_bind (byteAt_noErr c (p + 5)) fun b5 => ?_
    refine PResult.noErr_bind (byteAt_noErr c (p + 6)) fun b6 => ?_
    refine PResult.noErr_bind (byteAt_noErr c (p + 7)) fun b7 => ?_
    exact PResult.ok_noErr _

theorem parse_program_header_entry_noErr (p : Nat) (c : List Nat)
    (e : ElfEndianness) (pl : ElfPlatformType) :
    (parse_program_header_entry p c e pl).noErr := by
  unfold parse_program_header_entry
  refine PResult.noErr_bind (parse_segment_type_noErr p c e) fun a => ?_
  obtain ⟨st, p1⟩ := a
  cases pl with
  | Bit32 =>
    refine PResult.noErr_bind (PResult.ok_noErr _) fun a => ?_
    obtain ⟨fl, p2⟩ := a
    refine PResult.noErr_bind (parse_segment_usize_t_noErr p2 c e .Bit32) fun a => ?_
    obtain ⟨x1, p3⟩ := a
    refine PResult.noErr_bind (parse_segment_usize_t_noErr p3 c e .Bit32) fun a => ?_
    obtain ⟨x2, p4⟩ := a
    refine PResult.noErr_bind (parse_segment_usize_t_noErr p4 c e .Bit32) fun a => ?_
    obtain ⟨x3, p5⟩ := a
    refine PResult.noErr_bind (parse_segment_usize_t_noErr p5 c e .Bit32) fun a => ?_
    obtain ⟨x4, p6⟩ := a
    refine PResult.noErr_bind (parse_segment_usize_t_noErr p6 c e .Bit32) fun a => ?_
    obtain ⟨x5, p7⟩ := a
    refine PResult.noErr_bind (parse_segment_flags_noErr p7 c e) fun a => ?_
    obtain ⟨fl2, p8⟩ := a
    refine PResult.noErr_bind (parse_segment_usize_t_noErr p8 c e .Bit32) fun a => ?_
    obtain ⟨x6, p9⟩ := a
    exact PResult.ok_noErr _
  | Bit64 =>
    refine PResult.noErr_bind (parse_segment_flags_noErr p1 c e) fun a => ?_
    obtain ⟨fl, p2⟩ := a
    refine PResult.noErr_bind (parse_segment_usize_t_noErr p2 c e .Bit64) fun a => ?_
    obtain ⟨x1, p3⟩ := a
    refine PResult.noErr_bind (parse_segment_usize_t_noErr p3 c e .Bit64) fun a => ?_
    obtain ⟨x2, p4⟩ := a
    refine PResult.noErr_bind (parse_segment_usize_t_noErr p4 c e .Bit64) fun a => ?_
    obtain ⟨x3, p5⟩ := a
    refine PResult.noErr_bind (parse_segment_usize_t_noErr p5 c e .Bit64) fun a => ?_
    obtain ⟨x4, p6⟩ := a
    refine PResult.noErr_bind (parse_segment_usize_t_noErr p6 c e .Bit64) fun a => ?_
    obtain ⟨x5, p7⟩ := a
    refine PResult.noErr_bind (PResult.ok_noErr _) fun a => ?_
    obtain ⟨fl2, p8⟩ := a
    refine PResult.noErr_bind (parse_segment_usize_t_noErr p8 c e .Bit64) fun a => ?_
    obtain ⟨x6, p9⟩ := a
    exact PResult.ok_noErr _

theorem parse_program_header_loop_noErr (c : List Nat) (e : ElfEndianness)
    (pl : ElfPlatformType) :
    ∀ n p, (parse_program_header_loop n p c e pl).noErr := by
  intro n
  induction n with
  | zero => intro p; exact PResult.ok_noErr _
  | succ k ih =>
    intro p
    unfold parse_program_header_loop
    cases hpe : parse_program_header_entry p c e pl with
    | ok a =>
      obtain ⟨entry, p1⟩ := a
      exact PResult.noErr_bind (ih p1) fun a => PResult.ok_noErr _
    | err m p1 => exact ih p1
    | crash => exact PResult.crash_noErr

theorem parse_program_header_noErr (p : Nat) (c : List Nat) (n : Nat)
    (e : ElfEndianness) (pl : ElfPlatformType) :
    (parse_program_header p c n e pl).noErr :=
  parse_program_header_loop_noErr c e pl n p

theorem parse_program_header_loop_len (c : List Nat) (e : ElfEndianness)
    (pl : ElfPlatformType) :
    ∀ n p l q, parse_program_header_loop n p c e pl = .ok (l, q) →
      l.length = n := by
  intro n
  induction n with
  | zero =>
    intro p l q h
    cases h
    rfl
  | succ k ih =>
    intro p l q h
    unfold parse_program_header_loop at h
    cases hpe : parse_program_header_entry p c e pl with
    | ok a =>
      rw [hpe] at h
      obtain ⟨entry, p1⟩ := a
      obtain ⟨a2, h2, h3⟩ := PResult.bind_eq_ok h
      obtain ⟨rest, p2⟩ := a2
      injection h3 with h4
      have hl : entry :: rest = l := congrArg Prod.fst h4
      subst hl
      simp [List.length_cons, ih p1 rest p2 h2]
    | err m p1 =>
      exact absurd hpe (parse_program_header_entry_noErr p c e pl m p1)
    | crash =>
      rw [hpe] at h
      exact PResult.noConfusion h

theorem parse_section_name_offset_noErr (p : Nat) (c : List Nat)
    (e : ElfEndianness) : (parse_section_name_offset p c e).noErr := by
  unfold parse_section_name_offset
  refine PResult.noErr_bind (byteAt_noErr c p) fun b0 => ?_
  refine PResult.noErr_bind (byteAt_noErr c (p + 1)) fun b1 => ?_
  refine PResult.noErr_bind (byteAt_noErr c (p + 2)) fun b2 => ?_
  refine PResult.noErr_bind (byteAt_noErr c (p + 3)) fun b3 => ?_
  exact PResult.ok_noErr _

theorem parse_section_header_type_noErr (p : Nat) (c : List Nat)
    (e : ElfEndianness) : (parse_section_header_type p c e).noErr := by
  unfold parse_section_header_type
  refine PResult.noErr_bind (byteAt_noErr c p) fun b0 => ?_
  refine PResult.noErr_bind (byteAt_noErr c (p + 1)) fun b1 => ?_
  refine PResult.noErr_bind (byteAt_noErr c (p + 2)) fun b2 => ?_
  refine PResult.noErr_bind (byteAt_noErr c (p + 3)) fun b3 => ?_
  exact PResult.ok_noErr _

theorem parse_section_link_noErr (p : Nat) (c : List Nat)
    (e : ElfEndianness) : (parse_section_link p c e).noErr := by
  unfold parse_section_link
  refine PResult.noErr_bind (byteAt_noErr c p) fun b0 => ?_
  refine PResult.noErr_bind (byteAt_noErr c (p + 1)) fun b1 => ?_
  refine PResult.noErr_bind (byteAt_noErr c (p + 2)) fun b2 => ?_
  refine PResult.noErr_bind (byteAt_noErr c (p + 3)) fun b3 => ?_
  exact PResult.ok_noErr _

theorem parse_section_info_noErr (p : Nat) (c : List Nat)
    (e : ElfEndianness) : (parse_section_info p c e).noErr := by
  unfold parse_section_info
  refine PResult.noErr_bind (byteAt_noErr c p) fun b0 => ?_
  refine PResult.noErr_bind (byteAt_noErr c (p + 1)) fun b1 => ?_
  refine PResult.noErr_bind (byteAt_noErr c (p + 2)) fun b2 => ?_
  refine PResult.noErr_bind (byteAt_noErr c (p + 3)) fun b3 => ?_
  exact PResult.ok_noErr _

theorem parse_section_flags_noErr (p : Nat) (c : List Nat)
    (e : ElfEndianness) (pl : ElfPlatformType) :
    (parse_section_flags p c e pl).noErr := by
  unfold parse_section_flags
  refine PResult.noErr_bind (parse_segment_usize_t_noErr p c e pl) fun a => ?_
  obtain ⟨v, p1⟩ := a
  exact PResult.ok_noErr _

theorem parse_section_header_entry_noErr (p : Nat) (c : List Nat)
    (e : ElfEndianness) (pl : ElfPlatformType) :
    (parse_section_header_entry p c e pl).noErr := by
  unfold parse_section_header_entry
  refine PResult.noErr_bind (parse_section_name_offset_noErr p c e) fun a => ?_
  obtain ⟨x0, p1⟩ := a
  refine PResult.noErr_bind (parse_section_header_type_noErr p1 c e) fun a => ?_
  obtain ⟨x1, p2⟩ := a
  refine PResult.noErr_bind (parse_section_flags_noErr p2 c e pl) fun a => ?_
  obtain ⟨x2, p3⟩ := a
  refine PResult.noErr_bind (parse_segment_usize_t_noErr p3 c e pl) fun a => ?_
  obtain ⟨x3, p4⟩ := a
  refine PResult.noErr_bind (parse_segment_usize_t_noErr p4 c e pl) fun a => ?_
  obtain ⟨x4, p5⟩ := a
  refine PResult.noErr_bind (parse_segment_usize_t_noErr p5 c e pl) fun a => ?_
  obtain ⟨x5, p6⟩ := a
  refine PResult.noErr_bind (parse_section_link_noErr p6 c e) fun a => ?_
  obtain ⟨x6, p7⟩ := a
  refine PResult.noErr_bind (parse_section_info_noErr p7 c e) fun a => ?_
  obtain ⟨x7, p8⟩ := a
  refine PResult.noErr_bind (parse_segment_usize_t_noErr p8 c e pl) fun a => ?_
  obtain ⟨x8, p9⟩ := a
  refine PResult.noErr_bind (parse_segment_usize_t_noErr p9 c e pl) fun a => ?_
  obtain ⟨x9, p10⟩ := a
  exact PResult.ok_noErr _

theorem parse_section_header_loop_noErr (c : List Nat) (e : ElfEndianness)
    (pl : ElfPlatformType) :
    ∀ n p, (parse_section_header_loop n p c e pl).noErr := by
  intro n
  induction n with
  | zero => intro p; exact PResult.ok_noErr _
  | succ k ih =>
    intro p
    unfold parse_section_header_loop
    refine PResult.noErr_bind (parse_section_header_entry_noErr p c e pl) fun a => ?_
    obtain ⟨entry, p1⟩ := a
    refine PResult.noErr_bind (ih p1) fun a => ?_
    obtain ⟨rest, p2⟩ := a
    exact PResult.ok_noErr _

theorem parse_section_header_noErr (p : Nat) (c : List Nat) (n i : Nat)
    (e : ElfEndianness) (pl : ElfPlatformType) :
    (parse_section_header p c n i e pl).noErr := by
  unfold parse_section_header
  refine PResult.noErr_bind (parse_section_header_loop_noErr c e pl n p) fun a => ?_
  obtain ⟨entries, p1⟩ := a
  dsimp only
  cases hg : entries.get? i with
  | none => exact PResult.crash_noErr
  | some sect =>
    dsimp only
    split <;> first
      | exact PResult.ok_noErr _
      | exact PResult.crash_noErr

/-- The all-zero 64-bit program-header entry. -/
def c4zeroEntry : ElfProgramHeaderEntry :=
  { segment_type := .PtNull
    segment_flags := .PfUnknown
    segment_offset := 0
    segment_vaddr := 0
    segment_paddr := 0
    segment_file_size := 0
    segment_memory_size := 0
    segment_allignment := 0 }

/-- C4, amended.  The claimed policy asymmetry exists only as dead code:
no per-entry parser of either table decoder can produce a catchable error
(`Err`) at all, so the program-header loop's drop-and-continue branch is
unreachable and neither `parse_program_header` nor `parse_section_header`
ever returns an error value; the only realizable per-entry failure is an
out-of-bounds panic, which aborts either table decode entirely.
Consequently a successful program-header decode always holds exactly
`entry_count` entries — no entry is ever dropped. -/
theorem c4_amended :
    (∀ p c e pl m q,
      parse_program_header_entry p c e pl ≠ PResult.err m q) ∧
    (∀ p c e pl m q,
      parse_section_header_entry p c e pl ≠ PResult.err m q) ∧
    (∀ p c n e pl m q, parse_program_header p c n e pl ≠ PResult.err m q) ∧
    (∀ p c n i e pl m q, parse_section_header p c n i e pl ≠ PResult.err m q) ∧
    (∀ p c n e pl l q, parse_program_header p c n e pl = .ok (l, q) →
      l.length = n) := by
  refine ⟨?_, ?_, ?_, ?_, ?_⟩
  · intro p c e pl m q
    exact parse_program_header_entry_noErr p c e pl m q
  · intro p c e pl m q
    exact parse_section_header_entry_noErr p c e pl m q
  · intro p c n e pl m q
    exact parse_program_header_noErr p c n e pl m q
  · intro p c n i e pl m q
    exact parse_section_header_noErr p c n i e pl m q
  · intro p c n e pl l q h
    exact parse_program_header_loop_len c e pl n p l q h

/-- Witness for `c4_amended`: on a 112-byte all-zero image a 2-entry
program-header decode succeeds with exactly 2 entries. -/
theorem c4_amended_witness :
    parse_program_header 0 (List.replicate 112 0) 2 .Little .Bit64 =
      .ok ([c4zeroEntry, c4zeroEntry], 112) ∧
    [c4zeroEntry, c4zeroEntry].length = 2 :=
  ⟨by decide,
   c4_amended.2.2.2.2 0 (List.replicate 112 0) 2 .Little .Bit64
     [c4zeroEntry, c4zeroEntry] 112 (by decide)⟩

/-! ### Inversion lemmas for successful header field parses -/

theorem parse_magic_number_eq_ok {p : Nat} {c : List Nat} {s : String} {p' : Nat}
    (h : parse_magic_number p c = .ok (s, p')) :
    s = stringOfBytes [0x7f, 0x45, 0x4c, 0x46] ∧ p' = p + 4 := by
  unfold parse_magic_number at h
  obtain ⟨b0, hb0, h⟩ := PResult.bind_eq_ok h
  obtain ⟨b1, hb1, h⟩ := PResult.bind_eq_ok h
  obtain ⟨b2, hb2, h⟩ := PResult.bind_eq_ok h
  obtain ⟨b3, hb3, h⟩ := PResult.bind_eq_ok h
  split at h
  · rename_i hcond
    obtain ⟨e0, e1, e2, e3⟩ := hcond
    subst e0
    subst e1
    subst e2
    subst e3
    injection h with h4
    exact ⟨(congrArg Prod.fst h4).symm, (congrArg Prod.snd h4).symm⟩
  · exact PResult.noConfusion h

theorem parse_platform_type_eq_ok {p : Nat} {c : List Nat}
    {v : ElfPlatformType} {p' : Nat}
    (h : parse_platform_type p c = .ok (v, p')) : p' = p + 1 := by
  unfold parse_platform_type at h
  obtain ⟨b, hb, h⟩ := PResult.bind_eq_ok h
  split at h
  · injection h with h4
    exact (congrArg Prod.snd h4).symm
  · split at h
    · injection h with h4
      exact (congrArg Prod.snd h4).symm
    · exact PResult.noConfusion h

theorem parse_endianness_eq_ok {p : Nat} {c : List Nat}
    {v : ElfEndianness} {p' : Nat}
    (h : parse_endianness p c = .ok (v, p')) : p' = p + 1 := by
  unfold parse_endianness at h
  obtain ⟨b, hb, h⟩ := PResult.bind_eq_ok h
  split at h
  · injection h with h4
    exact (congrArg Prod.snd h4).symm
  · split at h
    · injection h with h4
      exact (congrArg Prod.snd h4).symm
    · exact PResult.noConfusion h

theorem parse_elf_header_version_eq_ok {p : Nat} {c : List Nat} {v p' : Nat}
    (h : parse_elf_header_version p c = .ok (v, p')) : p' = p + 1 := by
  unfold parse_elf_header_version at h
  obtain ⟨b, hb, h⟩ := PResult.bind_eq_ok h
  injection h with h4
  exact (congrArg Prod.snd h4).symm

theorem parse_target_system_abi_eq_ok {p : Nat} {c : List Nat}
    {v : ElfTargetSystemAbi} {p' : Nat}
    (h : parse_target_system_abi p c = .ok (v, p')) : p' = p + 1 := by
  unfold parse_target_system_abi at h
  obtain ⟨b, hb, h⟩ := PResult.bind_eq_ok h
  split at h
  · injection h with h4
    exact (congrArg Prod.snd h4).symm
  · exact PResult.noConfusion h

theorem parse_target_abi_version_eq_ok {p : Nat} {c : List Nat} {v p' : Nat}
    (h : parse_target_abi_version p c = .ok (v, p')) : p' = p + 1 := by
  unfold parse_target_abi_version at h
  obtain ⟨b, hb, h⟩ := PResult.bind_eq_ok h
  injection h with h4
  exact (congrArg Prod.snd h4).symm

theorem parse_reserved_padding_eq_ok {p : Nat} {c : List Nat}
    {v : List Nat} {p' : Nat}
    (h : parse_reserved_padding p c = .ok (v, p')) : p' = p + 7 := by
  unfold parse_reserved_padding at h
  obtain ⟨b0, hb0, h⟩ := PResult.bind_eq_ok h
  obtain ⟨b1, hb1, h⟩ := PResult.bind_eq_ok h
  obtain ⟨b2, hb2, h⟩ := PResult.bind_eq_ok h
  obtain ⟨b3, hb3, h⟩ := PResult.bind_eq_ok h
  obtain ⟨b4, hb4, h⟩ := PResult.bind_eq_ok h
  obtain ⟨b5, hb5, h⟩ := PResult.bind_eq_ok h
  obtain ⟨b6, hb6, h⟩ := PResult.bind_eq_ok h
  injection h with h4
  exact (congrArg Prod.snd h4).symm

theorem parse_object_file_type_eq_ok {p : Nat} {c : List Nat}
    {e : ElfEndianness} {v : ElfObjectFileType} {p' : Nat}
    (h : parse_object_file_type p c e = .ok (v, p')) : p' = p + 2 := by
  unfold parse_object_file_type at h
  obtain ⟨b0, hb0, h⟩ := PResult.bind_eq_ok h
  obtain ⟨b1, hb1, h⟩ := PResult.bind_eq_ok h
  split at h
  · injection h with h4
    exact (congrArg Prod.snd h4).symm
  · exact PResult.noConfusion h

theorem parse_instruction_set_eq_ok {p : Nat} {c : List Nat}
    {e : ElfEndianness} {v : ElfInstructionSet} {p' : Nat}
    (h : parse_instruction_set p c e = .ok (v, p')) : p' = p + 2 := by
  unfold parse_instruction_set at h
  obtain ⟨b0, hb0, h⟩ := PResult.bind_eq_ok h
  obtain ⟨b1, hb1, h⟩ := PResult.bind_eq_ok h
  split at h
  · injection h with h4
    exact (congrArg Prod.snd h4).symm
  · exact PResult.noConfusion h

theorem parse_elf_version_eq_ok {p : Nat} {c : List Nat}
    {e : ElfEndianness} {v p' : Nat}
    (h : parse_elf_version p c e = .ok (v, p')) : p' = p + 4 := by
  unfold parse_elf_version at h
  obtain ⟨b0, hb0, h⟩ := PResult.bind_eq_ok h
  obtain ⟨b1, hb1, h⟩ := PResult.bind_eq_ok h
  obtain ⟨b2, hb2, h⟩ := PResult.bind_eq_ok h
  obtain ⟨b3, hb3, h⟩ := PResult.bind_eq_ok h
  injection h with h4
  exact (congrArg Prod.snd h4).symm

theorem parse_entry_point_eq_ok {p : Nat} {c : List Nat}
    {pl : ElfPlatformType} {e : ElfEndianness} {v p' : Nat}
    (h : parse_entry_point p c pl e = .ok (v, p')) :
    p' = p + (match pl with | ElfPlatformType.Bit32 => 4 | ElfPlatformType.Bit64 => 8) := by
  unfold parse_entry_point at h
  cases pl with
  | Bit32 =>
    obtain ⟨b0, hb0, h⟩ := PResult.bind_eq_ok h
    obtain ⟨b1, hb1, h⟩ := PResult.bind_eq_ok h
    obtain ⟨b2, hb2, h⟩ := PResult.bind_eq_ok h
    obtain ⟨b3, hb3, h⟩ := PResult.bind_eq_ok h
    injection h with h4
    exact (congrArg Prod.snd h4).symm
  | Bit64 =>
    obtain ⟨b0, hb0, h⟩ := PResult.bind_eq_ok h
    obtain ⟨b1, hb1, h⟩ := PResult.bind_eq_ok h
    obtain ⟨b2, hb2, h⟩ := PResult.bind_eq_ok h
    obtain ⟨b3, hb3, h⟩ := PResult.bind_eq_ok h
    obtain ⟨b4, hb4, h⟩ := PResult.bind_eq_ok h
    obtain ⟨b5, hb5, h⟩ := PResult.bind_eq_ok h
    obtain ⟨b6, hb6, h⟩ := PResult.bind_eq_ok h
    obtain ⟨b7, hb7, h⟩ := PResult.bind_eq_ok h
    injection h with h4
    exact (congrArg Prod.snd h4).symm

theorem parse_program_header_offset_eq_ok {p : Nat} {c : List Nat}
    {pl : ElfPlatformType} {e : ElfEndianness} {v p' : Nat}
    (h : parse_program_header_offset p c pl e = .ok (v, p')) :
    p' = p + (match pl with | ElfPlatformType.Bit32 => 4 | ElfPlatformType.Bit64 => 8) := by
  unfold parse_program_header_offset at h
  cases pl with
  | Bit32 =>
    obtain ⟨b0, hb0, h⟩ := PResult.bind_eq_ok h
    obtain ⟨b1, hb1, h⟩ := PResult.bind_eq_ok h
    obtain ⟨b2, hb2, h⟩ := PResult.bind_eq_ok h
    obtain ⟨b3, hb3, h⟩ := PResult.bind_eq_ok h
    injection h with h4
    exact (congrArg Prod.snd h4).symm
  | Bit64 =>
    obtain ⟨b0, hb0, h⟩ := PResult.bind_eq_ok h
    obtain ⟨b1, hb1, h⟩ := PResult.bind_eq_ok h
    obtain ⟨b2, hb2, h⟩ := PResult.bind_eq_ok h
    obtain ⟨b3, hb3, h⟩ := PResult.bind_eq_ok h
    obtain ⟨b4, hb4, h⟩ := PResult.bind_eq_ok h
    obtain ⟨b5, hb5, h⟩ := PResult.bind_eq_ok h
    obtain ⟨b6, hb6, h⟩ := PResult.bind_eq_ok h
    obtain ⟨b7, hb7, h⟩ := PResult.bind_eq_ok h
    injection h with h4
    exact (congrArg Prod.snd h4).symm

theorem parse_section_header_offset_eq_ok {p : Nat} {c : List Nat}
    {pl : ElfPlatformType} {e : ElfEndianness} {v p' : Nat}
    (h : parse_section_header_offset p c pl e = .ok (v, p')) :
    p' = p + (match pl with | ElfPlatformType.Bit32 => 4 | ElfPlatformType.Bit64 => 8) := by
  unfold parse_section_header_offset at h
  cases pl with
  | Bit32 =>
    obtain ⟨b0, hb0, h⟩ := PResult.bind_eq_ok h
    obtain ⟨b1, hb1, h⟩ := PResult.bind_eq_ok h
    obtain ⟨b2, hb2, h⟩ := PResult.bind_eq_ok h
    obtain ⟨b3, hb3, h⟩ := PResult.bind_eq_ok h
    injection h with h4
    exact (congrArg Prod.snd h4).symm
  | Bit64 =>
    obtain ⟨b0, hb0, h⟩ := PResult.bind_eq_ok h
    obtain ⟨b1, hb1, h⟩ := PResult.bind_eq_ok h
    obtain ⟨b2, hb2, h⟩ := PResult.bind_eq_ok h
    obtain ⟨b3, hb3, h⟩ := PResult.bind_eq_ok h
    obtain ⟨b4, hb4, h⟩ := PResult.bind_eq_ok h
    obtain ⟨b5, hb5, h⟩ := PResult.bind_eq_ok h
    obtain ⟨b6, hb6, h⟩ := PResult.bind_eq_ok h
    obtain ⟨b7, hb7, h⟩ := PResult.bind_eq_ok h
    injection h with h4
    exact (congrArg Prod.snd h4).symm

theorem parse_flags_eq_ok {p : Nat} {c : List Nat}
    {e : ElfEndianness} {v p' : Nat}
    (h : parse_flags p c e = .ok (v, p')) : p' = p + 4 := by
  unfold parse_flags at h
  obtain ⟨b0, hb0, h⟩ := PResult.bind_eq_ok h
  obtain ⟨b1, hb1, h⟩ := PResult.bind_eq_ok h
  obtain ⟨b2, hb2, h⟩ := PResult.bind_eq_ok h
  obtain ⟨b3, hb3, h⟩ := PResult.bind_eq_ok h
  injection h with h4
  exact (congrArg Prod.snd h4).symm

theorem parse_header_size_eq_ok {p : Nat} {c : List Nat}
    {e : ElfEndianness} {v p' : Nat}
    (h : parse_header_size p c e = .ok (v, p')) : p' = p + 2 := by
  unfold parse_header_size at h
  obtain ⟨b0, hb0, h⟩ := PResult.bind_eq_ok h
  obtain ⟨b1, hb1, h⟩ := PResult.bind_eq_ok h
  injection h with h4
  exact (congrArg Prod.snd h4).symm

theorem parse_program_header_entry_size_eq_ok {p : Nat} {c : List Nat}
    {e : ElfEndianness} {v p' : Nat}
    (h : parse_program_header_entry_size p c e = .ok (v, p')) : p' = p + 2 := by
  unfold parse_program_header_entry_size at h
  obtain ⟨b0, hb0, h⟩ := PResult.bind_eq_ok h
  obtain ⟨b1, hb1, h⟩ := PResult.bind_eq_ok h
  injection h with h4
  exact (congrArg Prod.snd h4).symm

theorem parse_program_header_entry_count_eq_ok {p : Nat} {c : List Nat}
    {e : ElfEndianness} {v p' : Nat}
    (h : parse_program_header_entry_count p c e = .ok (v, p')) : p' = p + 2 := by
  unfold parse_program_header_entry_count at h
  obtain ⟨b0, hb0, h⟩ := PResult.bind_eq_ok h
  obtain ⟨b1, hb1, h⟩ := PResult.bind_eq_ok h
  injection h with h4
  exact (congrArg Prod.snd h4).symm

theorem parse_section_header_entry_size_eq_ok {p : Nat} {c : List Nat}
    {e : ElfEndianness} {v p' : Nat}
    (h : parse_section_header_entry_size p c e = .ok (v, p')) : p' = p + 2 := by
  unfold parse_section_header_entry_size at h
  obtain ⟨b0, hb0, h⟩ := PResult.bind_eq_ok h
  obtain ⟨b1, hb1, h⟩ := PResult.bind_eq_ok h
  injection h with h4
  exact (congrArg Prod.snd h4).symm

theorem parse_section_header_entry_count_eq_ok {p : Nat} {c : List Nat}
    {e : ElfEndianness} {v p' : Nat}
    (h : parse_section_header_entry_count p c e = .ok (v, p')) : p' = p + 2 := by
  unfold parse_section_header_entry_count at h
  obtain ⟨b0, hb0, h⟩ := PResult.bind_eq_ok h
  obtain ⟨b1, hb1, h⟩ := PResult.bind_eq_ok h
  injection h with h4
  exact (congrArg Prod.snd h4).symm

theorem parse_section_header_sections_table_index_eq_ok {p : Nat} {c : List Nat}
    {e : ElfEndianness} {v p' : Nat}
    (h : parse_section_header_sections_table_index p c e = .ok (v, p')) :
    p' = p + 2 := by
  unfold parse_section_header_sections_table_index at h
  obtain ⟨b0, hb0, h⟩ := PResult.bind_eq_ok h
  obtain ⟨b1, hb1, h⟩ := PResult.bind_eq_ok h
  injection h with h4
  exact (congrArg Prod.snd h4).symm

theorem parse_entry_point_64le_val {p : Nat} {c : List Nat} {v p' : Nat}
    (h : parse_entry_point p c .Bit64 .Little = .ok (v, p')) :
    v = c.getD p 0 + 2 ^ 8 * c.getD (p + 1) 0 + 2 ^ 16 * c.getD (p + 2) 0 +
      2 ^ 24 * c.getD (p + 3) 0 + 2 ^ 32 * c.getD (p + 4) 0 +
      2 ^ 40 * c.getD (p + 5) 0 + 2 ^ 48 * c.getD (p + 6) 0 +
      2 ^ 56 * c.getD (p + 7) 0 := by
  unfold parse_entry_point at h
  obtain ⟨b0, hb0, h⟩ := PResult.bind_eq_ok h
  obtain ⟨b1, hb1, h⟩ := PResult.bind_eq_ok h
  obtain ⟨b2, hb2, h⟩ := PResult.bind_eq_ok h
  obtain ⟨b3, hb3, h⟩ := PResult.bind_eq_ok h
  obtain ⟨b4, hb4, h⟩ := PResult.bind_eq_ok h
  obtain ⟨b5, hb5, h⟩ := PResult.bind_eq_ok h
  obtain ⟨b6, hb6, h⟩ := PResult.bind_eq_ok h
  obtain ⟨b7, hb7, h⟩ := PResult.bind_eq_ok h
  injection h with h4
  have hv : ElfEndianness.u64_from .Little b0 b1 b2 b3 b4 b5 b6 b7 = v :=
    congrArg Prod.fst h4
  rw [← hv, byteAt_getD hb0, byteAt_getD hb1, byteAt_getD hb2, byteAt_getD hb3,
    byteAt_getD hb4, byteAt_getD hb5, byteAt_getD hb6, byteAt_getD hb7]
  rfl

/-- Everything a successful header decode starting at position 0
guarantees: the magic field, the exact cursor position consumed, and for
the 64-bit little-endian case the byte-level value of the entry point. -/
theorem parse_header_ok_inv {c : List Nat} {h : ElfHeader} {p : Nat}
    (hok : parse_header 0 c = .ok (h, p)) :
    h.magic_number = stringOfBytes [0x7f, 0x45, 0x4c, 0x46] ∧
    p = (match h.platform_type with
         | ElfPlatformType.Bit32 => 52
         | ElfPlatformType.Bit64 => 64) ∧
    (h.platform_type = .Bit64 → h.endianness = .Little →
      h.entry_point = c.getD 24 0 + 2 ^ 8 * c.getD 25 0 + 2 ^ 16 * c.getD 26 0 +
        2 ^ 24 * c.getD 27 0 + 2 ^ 32 * c.getD 28 0 + 2 ^ 40 * c.getD 29 0 +
        2 ^ 48 * c.getD 30 0 + 2 ^ 56 * c.getD 31 0) := by
  unfold parse_header at hok
  obtain ⟨⟨magic, p1⟩, h1, hok⟩ := PResult.bind_eq_ok hok
  obtain ⟨hmagic, hp1⟩ := parse_magic_number_eq_ok h1
  obtain ⟨⟨plat, p2⟩, h2, hok⟩ := PResult.bind_eq_ok hok
  have hp2 := parse_platform_type_eq_ok h2
  obtain ⟨⟨endi, p3⟩, h3, hok⟩ := PResult.bind_eq_ok hok
  have hp3 := parse_endianness_eq_ok h3
  obtain ⟨⟨hver, p4⟩, h4, hok⟩ := PResult.bind_eq_ok hok
  have hp4 := parse_elf_header_version_eq_ok h4
  obtain ⟨⟨abi, p5⟩, h5, hok⟩ := PResult.bind_eq_ok hok
  have hp5 := parse_target_system_abi_eq_ok h5
  obtain ⟨⟨abiv, p6⟩, h6, hok⟩ := PResult.bind_eq_ok hok
  have hp6 := parse_target_abi_version_eq_ok h6
  obtain ⟨⟨pad, p7⟩, h7, hok⟩ := PResult.bind_eq_ok hok
  have hp7 := parse_reserved_padding_eq_ok h7
  obtain ⟨⟨otype, p8⟩, h8, hok⟩ := PResult.bind_eq_ok hok
  have hp8 := parse_object_file_type_eq_ok h8
  obtain ⟨⟨iset, p9⟩, h9, hok⟩ := PResult.bind_eq_ok hok
  have hp9 := parse_instruction_set_eq_ok h9
  obtain ⟨⟨ever, p10⟩, h10, hok⟩ := PResult.bind_eq_ok hok
  have hp10 := parse_elf_version_eq_ok h10
  obtain ⟨⟨entry, p11⟩, h11, hok⟩ := PResult.bind_eq_ok hok
  have hp11 := parse_entry_point_eq_ok h11
  obtain ⟨⟨phoff, p12⟩, h12, hok⟩ := PResult.bind_eq_ok hok
  have hp12 := parse_program_header_offset_eq_ok h12
  obtain ⟨⟨shoff, p13⟩, h13, hok⟩ := PResult.bind_eq_ok hok
  have hp13 := parse_section_header_offset_eq_ok h13
  obtain ⟨⟨flg, p14⟩, h14, hok⟩ := PResult.bind_eq_ok hok
  have hp14 := parse_flags_eq_ok h14
  obtain ⟨⟨hsz, p15⟩, h15, hok⟩ := PResult.bind_eq_ok hok
  have hp15 := parse_header_size_eq_ok h15
  obtain ⟨⟨phes, p16⟩, h16, hok⟩ := PResult.bind_eq_ok hok
  have hp16 := parse_program_header_entry_size_eq_ok h16
  obtain ⟨⟨phec, p17⟩, h17, hok⟩ := PResult.bind_eq_ok hok
  have hp17 := parse_program_header_entry_count_eq_ok h17
  obtain ⟨⟨shes, p18⟩, h18, hok⟩ := PResult.bind_eq_ok hok
  have hp18 := parse_section_header_entry_size_eq_ok h18
  obtain ⟨⟨shec, p19⟩, h19, hok⟩ := PResult.bind_eq_ok hok
  have hp19 := parse_section_header_entry_count_eq_ok h19
  obtain ⟨⟨shidx, p20⟩, h20, hok⟩ := PResult.bind_eq_ok hok
  have hp20 := parse_section_header_sections_table_index_eq_ok h20
  injection hok with h21
  have hh := congrArg Prod.fst h21
  have hpfin := congrArg Prod.snd h21
  dsimp only at hh hpfin
  subst hh
  subst hpfin
  refine ⟨hmagic, ?_, ?_⟩
  · cases plat with
    | Bit32 =>
      dsimp only at hp11 hp12 hp13
      show p20 = 52
      omega
    | Bit64 =>
      dsimp only at hp11 hp12 hp13
      show p20 = 64
      omega
  · intro h64 hle
    dsimp only at h64 hle
    subst h64
    subst hle
    have hp10eq : p10 = 24 := by omega
    subst hp10eq
    have hval := parse_entry_point_64le_val h11
    dsimp only
    exact hval

/-- C5.  For every buffer whose header decodes successfully from position
0 with the 64-bit word class and little-endian byte order, the decoded
entry-point field is exactly the little-endian composition of the eight
bytes at file offsets `0x18` through `0x1F`. -/
theorem c5_entry_point {c : List Nat} {h : ElfHeader} {p : Nat}
    (hok : parse_header 0 c = .ok (h, p))
    (h64 : h.platform_type = .Bit64) (hle : h.endianness = .Little) :
    h.entry_point = c.getD 0x18 0 + 2 ^ 8 * c.getD 0x19 0 +
      2 ^ 16 * c.getD 0x1A 0 + 2 ^ 24 * c.getD 0x1B 0 +
      2 ^ 32 * c.getD 0x1C 0 + 2 ^ 40 * c.getD 0x1D 0 +
      2 ^ 48 * c.getD 0x1E 0 + 2 ^ 56 * c.getD 0x1F 0 :=
  (parse_header_ok_inv hok).2.2 h64 hle

/-- Witness for `c5_entry_point` on the concrete 64-bit little-endian
image `buf64` (entry point `0x401000`). -/
theorem c5_entry_point_witness :
    hdr64.entry_point = buf64.getD 0x18 0 + 2 ^ 8 * buf64.getD 0x19 0 +
      2 ^ 16 * buf64.getD 0x1A 0 + 2 ^ 24 * buf64.getD 0x1B 0 +
      2 ^ 32 * buf64.getD 0x1C 0 + 2 ^ 40 * buf64.getD 0x1D 0 +
      2 ^ 48 * buf64.getD 0x1E 0 + 2 ^ 56 * buf64.getD 0x1F 0 :=
  @c5_entry_point buf64 hdr64 64 (by decide) rfl rfl

/-- C7.  Any buffer of at least 4 bytes whose first 4 bytes differ from
`0x7F 45 4C 46` makes the whole header decode fail with the
malformed-magic error (the source's `Unsupported file type` message); the
error result carries no header value, so no partial header is produced. -/
theorem c7_bad_magic {c : List Nat} (hlen : 4 ≤ c.length)
    (hmag : [c.getD 0 0, c.getD 1 0, c.getD 2 0, c.getD 3 0] ≠
      [0x7f, 0x45, 0x4c, 0x46]) :
    parse_header 0 c = .err "Unsupported file type" 4 := by
  have hb0 : byteAt c 0 = .ok (c.getD 0 0) := byteAt_of_lt (by omega)
  have hb1 : byteAt c 1 = .ok (c.getD 1 0) := byteAt_of_lt (by omega)
  have hb2 : byteAt c 2 = .ok (c.getD 2 0) := byteAt_of_lt (by omega)
  have hb3 : byteAt c 3 = .ok (c.getD 3 0) := byteAt_of_lt (by omega)
  have hmagic : parse_magic_number 0 c = .err "Unsupported file type" 4 := by
    unfold parse_magic_number
    simp only [Nat.zero_add]
    rw [hb0, hb1, hb2, hb3]
    simp only [PResult.bind_ok]
    have hcondneg : ¬(c.getD 0 0 = 0x7f ∧ c.getD 1 0 = 0x45 ∧
        c.getD 2 0 = 0x4c ∧ c.getD 3 0 = 0x46) := by
      intro hcond
      obtain ⟨e0, e1, e2, e3⟩ := hcond
      exact hmag (by rw [e0, e1, e2, e3])
    rw [if_neg hcondneg]
  unfold parse_header
  rw [hmagic]
  rfl

/-- Witness for `c7_bad_magic`: a buffer of four zero bytes. -/
theorem c7_bad_magic_witness :
    parse_header 0 [0, 0, 0, 0] = .err "Unsupported file type" 4 :=
  c7_bad_magic (by decide) (by decide)

/-- C8, amended.  A successful header decode guarantees the magic field
is the fixed 4-byte sequence, the word class is 32- or 64-bit and the
byte order is little or big (the only inhabitants of those decoded
enumerations); it does not guarantee the claimed geometry containment
`offset + entry_size * entry_count ≤ image length`, which `parse_header`
never checks. -/
theorem c8_amended {c : List Nat} {h : ElfHeader} {p : Nat}
    (hok : parse_header 0 c = .ok (h, p)) :
    h.magic_number = stringOfBytes [0x7f, 0x45, 0x4c, 0x46] ∧
    (h.platform_type = .Bit32 ∨ h.platform_type = .Bit64) ∧
    (h.endianness = .Little ∨ h.endianness = .Big) := by
  refine ⟨(parse_header_ok_inv hok).1, ?_, ?_⟩
  · cases h.platform_type
    · exact Or.inl rfl
    · exact Or.inr rfl
  · cases h.endianness
    · exact Or.inl rfl
    · exact Or.inr rfl

/-- Witness for `c8_amended` on the concrete 32-bit image `buf32`. -/
theorem c8_amended_witness :
    hdr32.magic_number = stringOfBytes [0x7f, 0x45, 0x4c, 0x46] ∧
    (hdr32.platform_type = .Bit32 ∨ hdr32.platform_type = .Bit64) ∧
    (hdr32.endianness = .Little ∨ hdr32.endianness = .Big) :=
  @c8_amended buf32 hdr32 52 (by decide)

/-- C10.  A successful header decode started at position 0 leaves the
cursor at exactly 52 when the decoded word class is 32-bit and at exactly
64 when it is 64-bit: the decode consumes precisely the declared header
size of its class. -/
theorem c10_consumed {c : List Nat} {h : ElfHeader} {p : Nat}
    (hok : parse_header 0 c = .ok (h, p)) :
    p = (match h.platform_type with
         | ElfPlatformType.Bit32 => 52
         | ElfPlatformType.Bit64 => 64) :=
  (parse_header_ok_inv hok).2.1

/-- Witness for `c10_consumed` on the concrete 32-bit image `buf32`,
whose successful decode ends at position 52. -/
theorem c10_consumed_witness :
    (52 : Nat) = (match hdr32.platform_type with
         | ElfPlatformType.Bit32 => 52
         | ElfPlatformType.Bit64 => 64) :=
  @c10_consumed buf32 hdr32 52 (by decide)
